import Mathlib

/-!
A verification development for the pressure–enthalpy refrigeration-cycle
simulator (`ph_simulator_v4.py`): unit conversion layer, property-service
adapter (`safe_coolprop_call`), dome sampler (`calculate_dome`), cycle
solver (`calculate_cycle`) and coordinate mapper (`map_coordinates`).

External collaborators are modelled as explicit parameters:
the thermodynamic property service (CoolProp `PropsSI`) as an `Oracle`,
the logarithmically spaced sampling grid (numpy `logspace`) as a `grid`
function, and the base-10 logarithm (numpy `log10`) as a `log10` function.
Finite Python floats are modelled as exact rationals, Python `None` as
`Option`, Python exceptions as `Except` over an exception-class type.
-/

namespace PhSim

/-! ## Unit conversion layer (source lines 30–43) -/

/-- Conversion factor `KPA_TO_PSIA = 0.1450377`. -/
def KPA_TO_PSIA : ℚ := 1450377 / 10000000

/-- Conversion factor `PSIA_TO_PA = (1 / KPA_TO_PSIA) * 1000`. -/
def PSIA_TO_PA : ℚ := (1 / KPA_TO_PSIA) * 1000

/-- Conversion factor `PA_TO_PSIA = KPA_TO_PSIA / 1000`. -/
def PA_TO_PSIA : ℚ := KPA_TO_PSIA / 1000

/-- Conversion factor `J_KG_TO_BTU_LB = 0.000430210`. -/
def J_KG_TO_BTU_LB : ℚ := 430210 / 1000000000

/-- Conversion factor `BTU_LB_TO_J_KG = 1 / J_KG_TO_BTU_LB`. -/
def BTU_LB_TO_J_KG : ℚ := 1 / J_KG_TO_BTU_LB

/-- Temperature-difference factor `DELTA_K_TO_DELTA_F = 1.8`. -/
def DELTA_K_TO_DELTA_F : ℚ := 18 / 10

/-- Temperature-difference factor `DELTA_F_TO_DELTA_K = 1 / 1.8`. -/
def DELTA_F_TO_DELTA_K : ℚ := 1 / DELTA_K_TO_DELTA_F

/-- The working fluid identifier (`REFRIGERANT = 'R134a'`). -/
def REFRIGERANT : String := "R134a"

/-- Absolute temperature conversion
`kelvin_to_fahrenheit(T_k) = (T_k - 273.15) * 9/5 + 32`, propagating `None`. -/
def kelvin_to_fahrenheit : Option ℚ → Option ℚ
  | some T_k => some ((T_k - 27315 / 100) * 9 / 5 + 32)
  | none => none

/-- Absolute temperature conversion
`fahrenheit_to_kelvin(T_f) = (T_f - 32) * 5/9 + 273.15`, propagating `None`. -/
def fahrenheit_to_kelvin : Option ℚ → Option ℚ
  | some T_f => some ((T_f - 32) * 5 / 9 + 27315 / 100)
  | none => none

/-! ## Python value and exception model -/

/-- Python exception classes relevant to the simulator: `ValueError`
(the only class the adapter catches), `TypeError` (raised by comparing
`None` with a number), and any other exception class. -/
inductive PyExc : Type
  | valueError (msg : String)
  | typeError (msg : String)
  | otherError (msg : String)
deriving DecidableEq

/-- Python `str(e)` on an exception: its message. -/
def PyExc.str : PyExc → String
  | .valueError m => m
  | .typeError m => m
  | .otherError m => m

/-- A Python value submitted to the adapter: a finite number, a
non-finite float (`nan`/`inf`), `None`, or a string. -/
inductive PyVal : Type
  | num (q : ℚ)
  | nonfinite
  | pynone
  | pystr (s : String)
deriving DecidableEq

/-- The adapter's input check, `isinstance(v, (int, float)) and
math.isfinite(v)` combined. -/
def PyVal.isFiniteNum : PyVal → Bool
  | .num _ => true
  | _ => false

/-- A value returned by the external property service: a finite number
or a non-finite float. -/
inductive CPResult : Type
  | val (q : ℚ)
  | nonfinite
deriving DecidableEq

/-- The external property service (`CP.PropsSI`): given the output
property, two input name/value pairs and the fluid, it returns a value
or raises an exception of some class. -/
abbrev Oracle := String → String → ℚ → String → ℚ → String → Except PyExc CPResult

/-! ## String helpers for error messages -/

/-- Characters of a string up to (excluding) the first newline. -/
def takeLine : List Char → List Char
  | [] => []
  | c :: cs => if c = '\n' then [] else c :: takeLine cs

/-- Python `str(e).split('\n')[0]`: the first line of a message. -/
def firstLine (s : String) : String := ⟨takeLine s.data⟩

/-- Whether `needle` occurs as a contiguous sublist of the character list. -/
def hasSub (needle : List Char) : List Char → Bool
  | [] => needle.isEmpty
  | c :: cs => needle.isPrefixOf (c :: cs) || hasSub needle cs

/-- Python substring test `needle in hay` (for non-empty `needle`). -/
def strContains (hay needle : String) : Bool := hasSub needle.data hay.data

/-- Python `format(v, '.1f')` on a finite rational, rounded to one
decimal place. -/
def fmt1f (q : ℚ) : String :=
  let n : ℤ := ⌊q * 10 + 1 / 2⌋
  (if n < 0 then "-" else "") ++ toString (n.natAbs / 10) ++ "." ++ toString (n.natAbs % 10)

/-- Python `format((v or 0), '.1f')` on an adapter input value. A `None`
or empty-string input is replaced by `0`; formatting a non-empty string
with the `.1f` format code raises a `ValueError`. -/
def PyVal.orZeroFmt : PyVal → Except PyExc String
  | .num q => .ok (fmt1f q)
  | .nonfinite => .ok "nan"
  | .pynone => .ok (fmt1f 0)
  | .pystr s =>
    if s = "" then .ok (fmt1f 0)
    else .error (.valueError "Unknown format code f for object of type str")

/-- Whether formatting `(v or 0)` with the `.1f` format code succeeds:
it fails exactly on non-empty strings. -/
def PyVal.fmtOk : PyVal → Bool
  | .pystr s => s == ""
  | _ => true

/-- The adapter's error-log entry: `CP Error: {msg} calc
{out}({in1}={v1},{in2}={v2})` (source line 139, braces shown for the
interpolated fields). -/
def cpErrMsg (emsg out i1 f1 i2 f2 : String) : String :=
  "CP Error: " ++ firstLine emsg ++ " calc " ++ out ++ "(" ++ i1 ++ "=" ++ f1 ++
    "," ++ i2 ++ "=" ++ f2 ++ ")"

/-- Deduplicated append: `if error_str not in self.errors:
self.errors.append(error_str)`. -/
def appendDedup (errs : List String) (m : String) : List String :=
  if m ∈ errs then errs else errs ++ [m]

/-! ## Property service adapter (source lines 125–141) -/

/-- The adapter `safe_coolprop_call`. It validates that both input
values are finite numbers, delegates to the service, and converts a
`ValueError` (from the validation, the service, or a non-finite service
result) into a deduplicated log entry plus an absent result. Any other
exception class propagates; so does the `ValueError` raised when the
except-handler formats a non-empty-string input value. The result pairs
the updated error log with the optional value. -/
def safe_coolprop_call (O : Oracle) (errors : List String)
    (output_param input1_param : String) (input1_val : PyVal)
    (input2_param : String) (input2_val : PyVal) (refrigerant : String) :
    Except PyExc (List String × Option ℚ) :=
  let handle : String → Except PyExc (List String × Option ℚ) := fun emsg =>
    match input1_val.orZeroFmt with
    | .error ex => .error ex
    | .ok f1 =>
      match input2_val.orZeroFmt with
      | .error ex => .error ex
      | .ok f2 =>
        .ok (appendDedup errors (cpErrMsg emsg output_param input1_param f1 input2_param f2),
          none)
  match input1_val, input2_val with
  | .num v1, .num v2 =>
    match O output_param input1_param v1 input2_param v2 refrigerant with
    | .ok (.val q) => .ok (errors, some q)
    | .ok .nonfinite =>
      handle ("CoolProp returned non-finite value (" ++ output_param ++ "=nan)")
    | .error (.valueError m) => handle m
    | .error e => .error e
  | _, _ => handle "Invalid non-finite input"

/-! ## Cycle solver data model (source lines 92–95, 104–110) -/

/-- The operator-controlled cycle parameters (imperial units). -/
structure Params where
  p_evap_psia : ℚ
  p_cond_psia : ℚ
  superheat_F : ℚ
  subcooling_F : ℚ
  eta_comp : ℚ
deriving DecidableEq

/-- The default parameter values set by `reset_parameters`. -/
def defaultParams : Params := ⟨35, 160, 10, 5, 3 / 4⟩

/-- One state point record (SI units): pressure, enthalpy, entropy,
temperature and optional vapor quality. -/
structure StatePoint where
  p : ℚ
  h : ℚ
  s : ℚ
  T : ℚ
  Q : Option ℚ
deriving DecidableEq

/-- The published result of one `calculate_cycle` invocation: the five
state-point records (an empty Python dict is `none`), the four
performance values, and the error log. -/
structure CycleResult where
  sp1 : Option StatePoint := none
  sp2 : Option StatePoint := none
  sp2s : Option StatePoint := none
  sp3 : Option StatePoint := none
  sp4 : Option StatePoint := none
  COP : Option ℚ := none
  Q_evap_btu_lb : Option ℚ := none
  W_comp_btu_lb : Option ℚ := none
  Q_cond_btu_lb : Option ℚ := none
  errors : List String := []
deriving DecidableEq

/-- The cleanup filter at the start of `calculate_cycle` (source line
187): keep the error entries that do not contain `"CoolProp Error:"`. -/
def cleanErrors (errs : List String) : List String :=
  errs.filter fun e => !(strContains e "CoolProp Error:")

/-! ## Cycle solver (source lines 185–252) -/

/-- The cycle solver `calculate_cycle`, as a function of the parameters,
the property service and the error log carried in from earlier
computations. Each failed lookup returns early with the state computed so
far; an exception not caught by the adapter propagates. -/
def calculate_cycle (P : Params) (O : Oracle) (errors0 : List String) :
    Except PyExc CycleResult :=
  let errs := cleanErrors errors0
  let p_evap_pa := P.p_evap_psia * PSIA_TO_PA
  let p_cond_pa := P.p_cond_psia * PSIA_TO_PA
  let delta_T_sh_k := P.superheat_F * DELTA_F_TO_DELTA_K
  let delta_T_sc_k := P.subcooling_F * DELTA_F_TO_DELTA_K
  if p_evap_pa ≥ p_cond_pa then
    .ok { errors := errs ++ ["P_evap must be < P_cond"] }
  else
    match safe_coolprop_call O errs "T" "P" (.num p_evap_pa) "Q" (.num 1) REFRIGERANT with
    | .error e => .error e
    | .ok (errs, rTse) =>
    match safe_coolprop_call O errs "T" "P" (.num p_cond_pa) "Q" (.num 0) REFRIGERANT with
    | .error e => .error e
    | .ok (errs, rTsc) =>
    match rTse, rTsc with
    | some T_sat_evap_k, some T_sat_cond_k =>
      let T1_k := T_sat_evap_k + max (1 / 100) delta_T_sh_k
      match safe_coolprop_call O errs "H" "P" (.num p_evap_pa) "T" (.num T1_k) REFRIGERANT with
      | .error e => .error e
      | .ok (errs, rh1) =>
      match safe_coolprop_call O errs "S" "P" (.num p_evap_pa) "T" (.num T1_k) REFRIGERANT with
      | .error e => .error e
      | .ok (errs, rs1) =>
      match rh1, rs1 with
      | some h1_si, some s1_si =>
        let sp1 : StatePoint := ⟨p_evap_pa, h1_si, s1_si, T1_k, some 1⟩
        let s2s_si := s1_si
        match safe_coolprop_call O errs "H" "P" (.num p_cond_pa) "S" (.num s2s_si) REFRIGERANT with
        | .error e => .error e
        | .ok (errs, rh2s) =>
        match safe_coolprop_call O errs "T" "P" (.num p_cond_pa) "S" (.num s2s_si) REFRIGERANT with
        | .error e => .error e
        | .ok (errs, rT2s) =>
        match rh2s, rT2s with
        | some h2s_si, some T2s_k =>
          let sp2s : StatePoint := ⟨p_cond_pa, h2s_si, s2s_si, T2s_k, none⟩
          if P.eta_comp ≤ 0 then
            .ok { sp1 := some sp1, sp2s := some sp2s,
                  errors := errs ++ ["Comp eff must be > 0"] }
          else
            let w0 := h2s_si - h1_si
            let ew : List String × ℚ :=
              if w0 ≤ 0 then (errs ++ ["Warning: Isentropic enthalpy rise <= 0"], 1 / 1000)
              else (errs, w0)
            let errs := ew.1
            let w_comp_isentropic_si := ew.2
            let h2_si := h1_si + w_comp_isentropic_si / P.eta_comp
            match safe_coolprop_call O errs "T" "P" (.num p_cond_pa) "H" (.num h2_si) REFRIGERANT with
            | .error e => .error e
            | .ok (errs, rT2) =>
            match safe_coolprop_call O errs "S" "P" (.num p_cond_pa) "H" (.num h2_si) REFRIGERANT with
            | .error e => .error e
            | .ok (errs, rs2) =>
            match rT2, rs2 with
            | some T2_k, some s2_si =>
              let sp2 : StatePoint := ⟨p_cond_pa, h2_si, s2_si, T2_k, none⟩
              let T3_k := T_sat_cond_k - max (1 / 100) delta_T_sc_k
              match safe_coolprop_call O errs "H" "P" (.num p_cond_pa) "T" (.num T3_k) REFRIGERANT with
              | .error e => .error e
              | .ok (errs, rh3) =>
              match safe_coolprop_call O errs "S" "P" (.num p_cond_pa) "T" (.num T3_k) REFRIGERANT with
              | .error e => .error e
              | .ok (errs, rs3) =>
              match rh3, rs3 with
              | some h3_si, some s3_si =>
                let sp3 : StatePoint := ⟨p_cond_pa, h3_si, s3_si, T3_k, some 0⟩
                let h4_si := h3_si
                let p4_pa := p_evap_pa
                match safe_coolprop_call O errs "T" "P" (.num p4_pa) "H" (.num h4_si) REFRIGERANT with
                | .error e => .error e
                | .ok (errs, rT4) =>
                match safe_coolprop_call O errs "S" "P" (.num p4_pa) "H" (.num h4_si) REFRIGERANT with
                | .error e => .error e
                | .ok (errs, rs4) =>
                match safe_coolprop_call O errs "Q" "P" (.num p4_pa) "H" (.num h4_si) REFRIGERANT with
                | .error e => .error e
                | .ok (errs, rq4) =>
                match rT4, rs4, rq4 with
                | some T4_k, some s4_si, some q4 =>
                  let sp4 : StatePoint := ⟨p4_pa, h4_si, s4_si, T4_k, some q4⟩
                  let q_evap_si := h1_si - h4_si
                  let w_comp_actual_si := h2_si - h1_si
                  let q_cond_si := h2_si - h3_si
                  .ok { sp1 := some sp1, sp2 := some sp2, sp2s := some sp2s,
                        sp3 := some sp3, sp4 := some sp4,
                        COP := if w_comp_actual_si > 1 / 1000000 then
                            some (q_evap_si / w_comp_actual_si)
                          else none,
                        Q_evap_btu_lb := some (q_evap_si * J_KG_TO_BTU_LB),
                        W_comp_btu_lb := some (w_comp_actual_si * J_KG_TO_BTU_LB),
                        Q_cond_btu_lb := some (q_cond_si * J_KG_TO_BTU_LB),
                        errors := errs }
                | _, _, _ =>
                  .ok { sp1 := some sp1, sp2 := some sp2, sp2s := some sp2s,
                        sp3 := some sp3, errors := errs }
              | _, _ =>
                .ok { sp1 := some sp1, sp2 := some sp2, sp2s := some sp2s,
                      errors := errs }
            | _, _ =>
              .ok { sp1 := some sp1, sp2s := some sp2s, errors := errs }
        | _, _ => .ok { sp1 := some sp1, errors := errs }
      | _, _ => .ok { errors := errs }
    | _, _ => .ok { errors := errs }

/-! ## Plot configuration (source lines 85–90, 112–123) -/

/-- The plotting configuration of the simulator: enthalpy and pressure
axis bounds (imperial) and the plot rectangle computed by
`update_layout`. -/
structure SimCfg where
  h_min_btu_lb : ℚ
  h_max_btu_lb : ℚ
  p_min_psia : ℚ
  p_max_psia : ℚ
  plot_x : ℚ
  plot_y : ℚ
  plot_width : ℚ
  plot_height : ℚ
deriving DecidableEq

/-- The configuration of a 1300×880 window: axis bounds from `__init__`
and the plot rectangle from `update_layout`. -/
def defaultCfg : SimCfg := ⟨40, 210, 10, 400, 95, 60, 840, 750⟩

/-! ## Dome sampler (source lines 143–182) -/

/-- The published result of `calculate_dome`: the sampled pressures, the
saturated-liquid and saturated-vapor enthalpy branches, and the error
log. -/
structure DomeResult where
  dome_p_pa : List ℚ := []
  dome_h_liq : List ℚ := []
  dome_h_vap : List ℚ := []
  errors : List String := []
deriving DecidableEq

/-- The sampling loop of `calculate_dome` (source lines 164–170): for
each grid pressure, look up the two saturation enthalpies and keep the
sample only if both lookups succeed. The accumulator carries the three
sample lists and the error log; an exception escaping the adapter stops
the loop and is recorded in the last component. -/
def domeLoop (O : Oracle) : List ℚ → List ℚ × List ℚ × List ℚ × List String →
    List ℚ × List ℚ × List ℚ × List String × Option PyExc
  | [], (ps, ls, vs, errs) => (ps, ls, vs, errs, none)
  | p_pa :: rest, (ps, ls, vs, errs) =>
    match safe_coolprop_call O errs "H" "P" (.num p_pa) "Q" (.num 0) REFRIGERANT with
    | .error e => (ps, ls, vs, errs, some e)
    | .ok (errs, rliq) =>
      match safe_coolprop_call O errs "H" "P" (.num p_pa) "Q" (.num 1) REFRIGERANT with
      | .error e => (ps, ls, vs, errs, some e)
      | .ok (errs, rvap) =>
        match rliq, rvap with
        | some h_liq_si, some h_vap_si =>
          domeLoop O rest (ps ++ [p_pa], ls ++ [h_liq_si], vs ++ [h_vap_si], errs)
        | _, _ => domeLoop O rest (ps, ls, vs, errs)

/-- The body of the `try` block of `calculate_dome` (source lines
149–179): critical-pressure lookup, effective-range computation and
validation, the sampling loop, and the critical-point apex append. The
last component records an exception escaping the body, to be caught by
the surrounding `except`. -/
def domeBody (cfg : SimCfg) (grid : ℚ → ℚ → ℕ → List ℚ) (O : Oracle)
    (errs : List String) : List ℚ × List ℚ × List ℚ × List String × Option PyExc :=
  match safe_coolprop_call O errs "pcrit" "" (.num 0) "" (.num 0) REFRIGERANT with
  | .error e => ([], [], [], errs, some e)
  | .ok (errs, rcrit) =>
    match rcrit with
    | none => ([], [], [], errs, none)
    | some crit_p_pa =>
      let p_min_pa_calc := cfg.p_min_psia * PSIA_TO_PA
      let p_max_pa_calc := cfg.p_max_psia * PSIA_TO_PA
      let p_start_pa := max 1000 p_min_pa_calc
      let p_end_pa := min p_max_pa_calc (crit_p_pa * (999 / 1000))
      if p_start_pa ≥ p_end_pa then
        ([], [], [], errs ++ ["Dome Calc: Invalid SI P range from PSIA."], none)
      else
        match domeLoop O (grid p_start_pa p_end_pa 80) ([], [], [], errs) with
        | (ps, ls, vs, errs, some e) => (ps, ls, vs, errs, some e)
        | (ps, ls, vs, errs, none) =>
          if p_end_pa > crit_p_pa * (9 / 10) then
            match safe_coolprop_call O errs "H" "P" (.num crit_p_pa) "Q" (.num (1 / 2)) REFRIGERANT with
            | .error e => (ps, ls, vs, errs, some e)
            | .ok (errs, rch) =>
              match rch with
              | some crit_h_si =>
                let p_crit_psia := crit_p_pa * PA_TO_PSIA
                if cfg.p_min_psia ≤ p_crit_psia ∧ p_crit_psia ≤ cfg.p_max_psia then
                  (ps ++ [crit_p_pa], ls ++ [crit_h_si], vs ++ [crit_h_si], errs, none)
                else (ps, ls, vs, errs, none)
              | none => (ps, ls, vs, errs, none)
          else (ps, ls, vs, errs, none)

/-- The dome sampler `calculate_dome`: filters dome-related errors from
the carried-in log, runs the body, and converts any escaped exception
into a deduplicated `Unexpected Dome Calc Error:` entry. The sampling
grid (numpy `logspace`) is an external collaborator passed as `grid`. -/
def calculate_dome (cfg : SimCfg) (grid : ℚ → ℚ → ℕ → List ℚ) (O : Oracle)
    (errors0 : List String) : DomeResult :=
  let errs := errors0.filter fun e => !(strContains e "Dome")
  match domeBody cfg grid O errs with
  | (ps, ls, vs, errs2, none) => ⟨ps, ls, vs, errs2⟩
  | (ps, ls, vs, errs2, some e) =>
    ⟨ps, ls, vs, appendDedup errs2 ("Unexpected Dome Calc Error: " ++ e.str)⟩

/-! ## Coordinate mapper (source lines 254–263) -/

/-- Python `int(x)`: truncation toward zero. -/
def pyInt (q : ℚ) : ℤ := if 0 ≤ q then ⌊q⌋ else -⌊-q⌋

/-- The coordinate mapper `map_coordinates`. The base-10 logarithm
(numpy `log10`) is an external collaborator passed as `log10`. A `None`
pressure reaches the comparison `p_psia <= 1e-6` first and raises a
`TypeError`; a `None` enthalpy returns `None`; an out-of-bounds pair
returns `None`; otherwise the pixel pair is returned. -/
def map_coordinates (cfg : SimCfg) (log10 : ℚ → ℚ)
    (h_btu_lb : Option ℚ) (p_psia : Option ℚ) : Except PyExc (Option (ℤ × ℤ)) :=
  match p_psia with
  | none => .error (.typeError "unsupported operand type for le: NoneType and float")
  | some p0 =>
    let p := if p0 ≤ 1 / 1000000 then cfg.p_min_psia else p0
    match h_btu_lb with
    | none => .ok none
    | some h =>
      let log_p := log10 p
      let log_p_min := log10 cfg.p_min_psia
      let log_p_max := log10 cfg.p_max_psia
      if cfg.h_min_btu_lb ≤ h ∧ h ≤ cfg.h_max_btu_lb ∧
          log_p_min ≤ log_p ∧ log_p ≤ log_p_max then
        let x := cfg.plot_x +
          (h - cfg.h_min_btu_lb) / (cfg.h_max_btu_lb - cfg.h_min_btu_lb) * cfg.plot_width
        let y := cfg.plot_y + cfg.plot_height -
          (log_p - log_p_min) / (log_p_max - log_p_min) * cfg.plot_height
        .ok (some (pyInt x, pyInt y))
      else .ok none

/-! ## Oracle and grid models used in the theorems -/

/-- A property service that never raises and always returns the finite
value given by `f`. -/
def fnOracle (f : String → String → ℚ → String → ℚ → String → ℚ) : Oracle :=
  fun out i1 v1 i2 v2 fl => .ok (.val (f out i1 v1 i2 v2 fl))

/-- A property service that raises only `ValueError` (the class CoolProp
uses), never another exception class. -/
def OnlyValueErrors (O : Oracle) : Prop :=
  ∀ out i1 v1 i2 v2 fl m,
    O out i1 v1 i2 v2 fl ≠ .error (.otherError m) ∧
    O out i1 v1 i2 v2 fl ≠ .error (.typeError m)

/-- A property service consistent with saturation ordering: at any
pressure, the enthalpy it reports at vapor quality 1 is at least the one
it reports at quality 0. -/
def PhysSaturation (O : Oracle) : Prop :=
  ∀ p hl hv, O "H" "P" p "Q" 0 REFRIGERANT = .ok (.val hl) →
    O "H" "P" p "Q" 1 REFRIGERANT = .ok (.val hv) → hl ≤ hv

/-- Modelled from the spec: the external grid generator (numpy
`logspace`) returns n samples spanning the effective range; the log
spacing itself is irrelevant to the claims, so a witness grid with
linear spacing between the same endpoints is used. -/
def linGrid (a b : ℚ) (n : ℕ) : List ℚ :=
  (List.range n).map fun i => a + (b - a) * (i : ℚ) / ((n : ℚ) - 1)

/-- The value chain computed by `calculate_cycle` under the service
`fnOracle f`: compressor-inlet temperature. -/
def T1of (P : Params) (f : String → String → ℚ → String → ℚ → String → ℚ) : ℚ :=
  f "T" "P" (P.p_evap_psia * PSIA_TO_PA) "Q" 1 REFRIGERANT +
    max (1 / 100) (P.superheat_F * DELTA_F_TO_DELTA_K)

/-- The value chain under `fnOracle f`: compressor-inlet enthalpy. -/
def h1of (P : Params) (f : String → String → ℚ → String → ℚ → String → ℚ) : ℚ :=
  f "H" "P" (P.p_evap_psia * PSIA_TO_PA) "T" (T1of P f) REFRIGERANT

/-- The value chain under `fnOracle f`: compressor-inlet entropy. -/
def s1of (P : Params) (f : String → String → ℚ → String → ℚ → String → ℚ) : ℚ :=
  f "S" "P" (P.p_evap_psia * PSIA_TO_PA) "T" (T1of P f) REFRIGERANT

/-- The value chain under `fnOracle f`: ideal compressor-outlet
enthalpy (isentropic). -/
def h2sof (P : Params) (f : String → String → ℚ → String → ℚ → String → ℚ) : ℚ :=
  f "H" "P" (P.p_cond_psia * PSIA_TO_PA) "S" (s1of P f) REFRIGERANT

/-- The state-point and performance portion of a published cycle result
(everything except the error log). -/
def pubData (r : CycleResult) :
    Option StatePoint × Option StatePoint × Option StatePoint × Option StatePoint ×
      Option StatePoint × Option ℚ × Option ℚ × Option ℚ × Option ℚ :=
  (r.sp1, r.sp2, r.sp2s, r.sp3, r.sp4, r.COP, r.Q_evap_btu_lb, r.W_comp_btu_lb,
    r.Q_cond_btu_lb)

/-- A property service that always succeeds with the value 5. -/
def Oval5 : Oracle := fun _ _ _ _ _ _ => .ok (.val 5)

/-- A property service whose backend raises an exception that is not a
`ValueError`. -/
def Oraise : Oracle := fun _ _ _ _ _ _ => .error (.otherError "backend failure")

/-- A property service that raises a `ValueError` whose own message text
contains the substring removed by the cycle solver's cleanup filter. -/
def Ocptext : Oracle := fun _ _ _ _ _ _ => .error (.valueError "CoolProp Error: fail")

/-- A property service reporting a critical pressure of 1 MPa (about 145
psia, inside the default pressure window) and 300 kJ/kg for every
enthalpy lookup. -/
def Odome : Oracle := fun out _ _ _ _ _ =>
  .ok (.val (if out = "pcrit" then 1000000 else 300000))

/-- A property service reporting a critical pressure of 1 MPa and an
enthalpy of 3 MJ/kg (about 1291 BTU/lb, far outside the default
enthalpy window of 40–210 BTU/lb) for every enthalpy lookup. -/
def OdomeBigH : Oracle := fun out _ _ _ _ _ =>
  .ok (.val (if out = "pcrit" then 1000000 else 3000000))

/-- Modelled from the spec: a degenerate one-sample instance of the
external sampling-grid collaborator, returning only the lower endpoint of
the effective range. It satisfies the grid contract (strictly increasing,
inside the range) used by the theorems, and keeps concrete instances
small. -/
def unitGrid (a : ℚ) (_b : ℚ) (_n : ℕ) : List ℚ := [a]

/-! # Theorems -/

/-! ## Arithmetic facts about the conversion constants -/

theorem PSIA_TO_PA_pos : 0 < PSIA_TO_PA := by
  norm_num [PSIA_TO_PA, KPA_TO_PSIA]

theorem PSIA_TO_PA_mul_PA_TO_PSIA : PSIA_TO_PA * PA_TO_PSIA = 1 := by
  norm_num [PSIA_TO_PA, PA_TO_PSIA, KPA_TO_PSIA]

theorem J_mul_BTU : J_KG_TO_BTU_LB * BTU_LB_TO_J_KG = 1 := by
  norm_num [J_KG_TO_BTU_LB, BTU_LB_TO_J_KG]

theorem DELTA_mul : DELTA_K_TO_DELTA_F * DELTA_F_TO_DELTA_K = 1 := by
  norm_num [DELTA_K_TO_DELTA_F, DELTA_F_TO_DELTA_K]

/-! ## C8: unit conversion round trips -/

/-- C8: pressure, specific-energy and temperature-difference conversions
are exact mutual inverses (hence round-trip within any floating-point
tolerance); the absolute temperature conversions are affine mutual
inverses carrying the 273.15/32 offset, while the temperature-difference
factors are additive (no offset). -/
theorem C8_unit_round_trips :
    (∀ x : ℚ, x * PSIA_TO_PA * PA_TO_PSIA = x) ∧
    (∀ x : ℚ, x * PA_TO_PSIA * PSIA_TO_PA = x) ∧
    (∀ x : ℚ, x * J_KG_TO_BTU_LB * BTU_LB_TO_J_KG = x) ∧
    (∀ x : ℚ, x * BTU_LB_TO_J_KG * J_KG_TO_BTU_LB = x) ∧
    (∀ d : ℚ, d * DELTA_K_TO_DELTA_F * DELTA_F_TO_DELTA_K = d) ∧
    (∀ d : ℚ, d * DELTA_F_TO_DELTA_K * DELTA_K_TO_DELTA_F = d) ∧
    (∀ T : ℚ, fahrenheit_to_kelvin (kelvin_to_fahrenheit (some T)) = some T) ∧
    (∀ F : ℚ, kelvin_to_fahrenheit (fahrenheit_to_kelvin (some F)) = some F) ∧
    kelvin_to_fahrenheit (some (27315 / 100)) = some 32 ∧
    fahrenheit_to_kelvin (some 32) = some (27315 / 100) ∧
    (∀ d e : ℚ, (d + e) * DELTA_K_TO_DELTA_F =
      d * DELTA_K_TO_DELTA_F + e * DELTA_K_TO_DELTA_F) := by
  refine ⟨?_, ?_, ?_, ?_, ?_, ?_, ?_, ?_, ?_, ?_, ?_⟩
  · intro x; rw [mul_assoc, PSIA_TO_PA_mul_PA_TO_PSIA, mul_one]
  · intro x; rw [mul_assoc, mul_comm PA_TO_PSIA, PSIA_TO_PA_mul_PA_TO_PSIA, mul_one]
  · intro x; rw [mul_assoc, J_mul_BTU, mul_one]
  · intro x; rw [mul_assoc, mul_comm BTU_LB_TO_J_KG, J_mul_BTU, mul_one]
  · intro d; rw [mul_assoc, DELTA_mul, mul_one]
  · intro d; rw [mul_assoc, mul_comm DELTA_F_TO_DELTA_K, DELTA_mul, mul_one]
  · intro T
    simp only [kelvin_to_fahrenheit, fahrenheit_to_kelvin, Option.some.injEq]
    ring
  · intro F
    simp only [kelvin_to_fahrenheit, fahrenheit_to_kelvin, Option.some.injEq]
    ring
  · simp only [kelvin_to_fahrenheit, Option.some.injEq]; norm_num
  · simp only [fahrenheit_to_kelvin, Option.some.injEq]; norm_num
  · intro d e; ring

/-! ## C1: the pressure invariant aborts the solver -/

theorem cycle_invalid_pressure (P : Params) (O : Oracle) (e : List String)
    (h : P.p_evap_psia * PSIA_TO_PA ≥ P.p_cond_psia * PSIA_TO_PA) :
    calculate_cycle P O e =
      .ok { errors := cleanErrors e ++ ["P_evap must be < P_cond"] } := by
  simp only [calculate_cycle]
  rw [if_pos h]

/-- C1: whenever the evaporating pressure converted to Pa is at least the
condensing pressure converted to Pa, `calculate_cycle` publishes a result
with all five state points empty and all four performance values absent,
appends the invariant-violation message, and its outcome does not depend
on the property service (no lookup is consulted). -/
theorem C1_invalid_pressure_aborts (P : Params) (O O2 : Oracle) (e : List String)
    (h : P.p_evap_psia * PSIA_TO_PA ≥ P.p_cond_psia * PSIA_TO_PA) :
    calculate_cycle P O e =
      .ok { sp1 := none, sp2 := none, sp2s := none, sp3 := none, sp4 := none,
            COP := none, Q_evap_btu_lb := none, W_comp_btu_lb := none,
            Q_cond_btu_lb := none,
            errors := cleanErrors e ++ ["P_evap must be < P_cond"] } ∧
    calculate_cycle P O e = calculate_cycle P O2 e := by
  refine ⟨cycle_invalid_pressure P O e h, ?_⟩
  rw [cycle_invalid_pressure P O e h, cycle_invalid_pressure P O2 e h]

theorem C1_witness :
    (⟨160, 35, 10, 5, 3 / 4⟩ : Params).p_evap_psia * PSIA_TO_PA ≥
        (⟨160, 35, 10, 5, 3 / 4⟩ : Params).p_cond_psia * PSIA_TO_PA ∧
      calculate_cycle ⟨160, 35, 10, 5, 3 / 4⟩ Oval5 [] =
        .ok { errors := ["P_evap must be < P_cond"] } := by
  have h : (⟨160, 35, 10, 5, 3 / 4⟩ : Params).p_evap_psia * PSIA_TO_PA ≥
      (⟨160, 35, 10, 5, 3 / 4⟩ : Params).p_cond_psia * PSIA_TO_PA :=
    mul_le_mul_of_nonneg_right (by decide) PSIA_TO_PA_pos.le
  exact ⟨h, (C1_invalid_pressure_aborts ⟨160, 35, 10, 5, 3 / 4⟩ Oval5 Oval5 [] h).1⟩

/-! ## C3: the non-positive isentropic-rise warning path -/

theorem safe_call_fn (f : String → String → ℚ → String → ℚ → String → ℚ)
    (e : List String) (out i1 : String) (v1 : ℚ) (i2 : String) (v2 : ℚ) (fl : String) :
    safe_coolprop_call (fnOracle f) e out i1 (.num v1) i2 (.num v2) fl =
      .ok (e, some (f out i1 v1 i2 v2 fl)) := rfl

/-- C3: with a property service that answers every lookup (modelled by
`fnOracle f`), valid pressures and positive efficiency, whenever the
isentropic enthalpy rise `h2s - h1` is non-positive the solver does not
fail: it appends the warning message, uses the floored isentropic work
`1e-3` so that the actual-outlet enthalpy is `h1 + 1e-3 / eta`, and still
derives the remaining state points and the performance values. -/
theorem C3_nonpositive_rise_recovers (P : Params)
    (f : String → String → ℚ → String → ℚ → String → ℚ) (e : List String)
    (hp : P.p_evap_psia * PSIA_TO_PA < P.p_cond_psia * PSIA_TO_PA)
    (heta : 0 < P.eta_comp)
    (hw : h2sof P f - h1of P f ≤ 0) :
    ∃ st, calculate_cycle P (fnOracle f) e = .ok st ∧
      "Warning: Isentropic enthalpy rise <= 0" ∈ st.errors ∧
      (∃ pt, st.sp2 = some pt ∧ pt.h = h1of P f + (1 / 1000) / P.eta_comp) ∧
      st.sp3.isSome ∧ st.sp4.isSome ∧ st.Q_evap_btu_lb.isSome ∧
      st.W_comp_btu_lb.isSome ∧ st.Q_cond_btu_lb.isSome := by
  simp only [h2sof, h1of, s1of, T1of] at hw
  simp only [calculate_cycle, safe_call_fn]
  rw [if_neg (not_le.mpr hp), if_neg (not_le.mpr heta), if_pos hw]
  refine ⟨_, rfl, ?_, ⟨_, rfl, rfl⟩, rfl, rfl, rfl, rfl, rfl⟩
  simp [List.mem_append]

/-- A property service model answering 0 for every lookup. -/
def fzero : String → String → ℚ → String → ℚ → String → ℚ := fun _ _ _ _ _ _ => 0

theorem C3_witness :
    (⟨35, 160, 10, 5, 1⟩ : Params).p_evap_psia * PSIA_TO_PA <
        (⟨35, 160, 10, 5, 1⟩ : Params).p_cond_psia * PSIA_TO_PA ∧
      (0 : ℚ) < (⟨35, 160, 10, 5, 1⟩ : Params).eta_comp ∧
      h2sof ⟨35, 160, 10, 5, 1⟩ fzero - h1of ⟨35, 160, 10, 5, 1⟩ fzero ≤ 0 ∧
      ∃ st, calculate_cycle ⟨35, 160, 10, 5, 1⟩ (fnOracle fzero) [] = .ok st ∧
        "Warning: Isentropic enthalpy rise <= 0" ∈ st.errors ∧
        (∃ pt, st.sp2 = some pt ∧
          pt.h = h1of ⟨35, 160, 10, 5, 1⟩ fzero + (1 / 1000) / (⟨35, 160, 10, 5, 1⟩ : Params).eta_comp) ∧
        st.sp3.isSome ∧ st.sp4.isSome ∧ st.Q_evap_btu_lb.isSome ∧
        st.W_comp_btu_lb.isSome ∧ st.Q_cond_btu_lb.isSome := by
  have hp : (⟨35, 160, 10, 5, 1⟩ : Params).p_evap_psia * PSIA_TO_PA <
      (⟨35, 160, 10, 5, 1⟩ : Params).p_cond_psia * PSIA_TO_PA :=
    mul_lt_mul_of_pos_right (by decide) PSIA_TO_PA_pos
  have heta : (0 : ℚ) < (⟨35, 160, 10, 5, 1⟩ : Params).eta_comp := by decide
  have hw : h2sof ⟨35, 160, 10, 5, 1⟩ fzero - h1of ⟨35, 160, 10, 5, 1⟩ fzero ≤ 0 := by
    simp [h2sof, h1of, fzero]
  exact ⟨hp, heta, hw, C3_nonpositive_rise_recovers ⟨35, 160, 10, 5, 1⟩ fzero [] hp heta hw⟩

/-! ## C2: the performance formulas -/

/-- C2: whenever `calculate_cycle` reaches the performance step (all four
published state points 1, 2, 3, 4 are present), the refrigerating effect
is `h1 - h4`, the compression work `h2 - h1` and the heat rejected
`h2 - h3`, each stored after conversion to BTU/lb, and the coefficient of
performance is `(h1 - h4) / (h2 - h1)` exactly when the SI compression
work exceeds `1e-6`, and absent otherwise. -/
theorem C2_performance_step (P : Params) (O : Oracle) (e : List String) (st : CycleResult)
    (pt1 pt2 pt3 pt4 : StatePoint)
    (hok : calculate_cycle P O e = .ok st)
    (h1 : st.sp1 = some pt1) (h2 : st.sp2 = some pt2)
    (h3 : st.sp3 = some pt3) (h4 : st.sp4 = some pt4) :
    st.Q_evap_btu_lb = some ((pt1.h - pt4.h) * J_KG_TO_BTU_LB) ∧
    st.W_comp_btu_lb = some ((pt2.h - pt1.h) * J_KG_TO_BTU_LB) ∧
    st.Q_cond_btu_lb = some ((pt2.h - pt3.h) * J_KG_TO_BTU_LB) ∧
    st.COP = (if pt2.h - pt1.h > 1 / 1000000 then
        some ((pt1.h - pt4.h) / (pt2.h - pt1.h))
      else none) := by
  simp only [calculate_cycle] at hok
  repeat' split at hok
  all_goals (try (exact Except.noConfusion hok))
  all_goals (injection hok with hok; subst hok)
  all_goals (dsimp only at h1 h2 h3 h4)
  all_goals (try (exact Option.noConfusion h1))
  all_goals (try (exact Option.noConfusion h2))
  all_goals (try (exact Option.noConfusion h3))
  all_goals (try (exact Option.noConfusion h4))
  all_goals (injection h1 with h1)
  all_goals (injection h2 with h2)
  all_goals (injection h3 with h3)
  all_goals (injection h4 with h4)
  all_goals (subst h1; subst h2; subst h3; subst h4)
  all_goals (dsimp only)
  all_goals (simp only [add_sub_cancel_left])
  all_goals (try simp_all)
  all_goals (split <;> try simp_all)
  all_goals linarith

theorem C2_witness :
    ∃ st pt1 pt2 pt3 pt4,
      calculate_cycle ⟨35, 160, 10, 5, 1⟩ (fnOracle fzero) [] = .ok st ∧
      st.sp1 = some pt1 ∧ st.sp2 = some pt2 ∧ st.sp3 = some pt3 ∧ st.sp4 = some pt4 ∧
      (st.Q_evap_btu_lb = some ((pt1.h - pt4.h) * J_KG_TO_BTU_LB) ∧
        st.W_comp_btu_lb = some ((pt2.h - pt1.h) * J_KG_TO_BTU_LB) ∧
        st.Q_cond_btu_lb = some ((pt2.h - pt3.h) * J_KG_TO_BTU_LB) ∧
        st.COP = (if pt2.h - pt1.h > 1 / 1000000 then
            some ((pt1.h - pt4.h) / (pt2.h - pt1.h))
          else none)) := by
  have key := C2_performance_step ⟨35, 160, 10, 5, 1⟩ (fnOracle fzero) []
  simp only [calculate_cycle, safe_call_fn, fzero]
  rw [if_neg (not_le.mpr (mul_lt_mul_of_pos_right (by decide : (35 : ℚ) < 160) PSIA_TO_PA_pos)),
    if_neg (not_le.mpr (by decide : (0 : ℚ) < 1)),
    if_pos (show (0 : ℚ) - 0 ≤ 0 by simp)]
  refine ⟨_, _, _, _, _, rfl, rfl, rfl, rfl, rfl, key _ _ _ _ _ ?_ rfl rfl rfl rfl⟩
  simp only [calculate_cycle, safe_call_fn, fzero]
  rw [if_neg (not_le.mpr (mul_lt_mul_of_pos_right (by decide : (35 : ℚ) < 160) PSIA_TO_PA_pos)),
    if_neg (not_le.mpr (by decide : (0 : ℚ) < 1)),
    if_pos (show (0 : ℚ) - 0 ≤ 0 by simp)]

/-! ## C7: recomputation determinism and the error log -/

theorem safe_call_shape (O : Oracle) (out i1 : String) (v1 : PyVal) (i2 : String)
    (v2 : PyVal) (fl : String) :
    (∃ ex, ∀ e, safe_coolprop_call O e out i1 v1 i2 v2 fl = .error ex) ∨
    (∃ r, ∀ e, ∃ e2, safe_coolprop_call O e out i1 v1 i2 v2 fl = .ok (e2, r)) := by
  have hfmt : ∀ v : PyVal, (∃ f, v.orZeroFmt = .ok f) ∨ (∃ ex, v.orZeroFmt = .error ex) := by
    intro v
    cases v with
    | num q => exact Or.inl ⟨_, rfl⟩
    | nonfinite => exact Or.inl ⟨_, rfl⟩
    | pynone => exact Or.inl ⟨_, rfl⟩
    | pystr s =>
      by_cases hs : s = ""
      · exact Or.inl ⟨fmt1f 0, by simp [PyVal.orZeroFmt, hs]⟩
      · exact Or.inr ⟨PyExc.valueError "Unknown format code f for object of type str",
          by simp [PyVal.orZeroFmt, hs]⟩
  have hhandle : ∀ emsg : String,
      (∃ ex, ∀ e : List String,
        (match v1.orZeroFmt with
          | .error ex => .error ex
          | .ok f1 =>
            match v2.orZeroFmt with
            | .error ex => .error ex
            | .ok f2 => .ok (appendDedup e (cpErrMsg emsg out i1 f1 i2 f2), (none : Option ℚ))) =
          (.error ex : Except PyExc (List String × Option ℚ))) ∨
      (∃ r, ∀ e : List String, ∃ e2,
        (match v1.orZeroFmt with
          | .error ex => .error ex
          | .ok f1 =>
            match v2.orZeroFmt with
            | .error ex => .error ex
            | .ok f2 => .ok (appendDedup e (cpErrMsg emsg out i1 f1 i2 f2), (none : Option ℚ))) =
          (.ok (e2, r) : Except PyExc (List String × Option ℚ))) := by
    intro emsg
    rcases hfmt v1 with ⟨f1, hf1⟩ | ⟨ex, hf1⟩
    · rcases hfmt v2 with ⟨f2, hf2⟩ | ⟨ex, hf2⟩
      · exact Or.inr ⟨none, fun e => ⟨_, by rw [hf1, hf2]⟩⟩
      · exact Or.inl ⟨ex, fun e => by rw [hf1, hf2]⟩
    · exact Or.inl ⟨ex, fun e => by rw [hf1]⟩
  cases v1 with
  | num q1 =>
    cases v2 with
    | num q2 =>
      rcases hO : O out i1 q1 i2 q2 fl with ex | cr
      · cases ex with
        | valueError m =>
          rcases hhandle m with ⟨ex, hx⟩ | ⟨r, hx⟩
          · exact Or.inl ⟨ex, fun e => by simp only [safe_coolprop_call, hO]; exact hx e⟩
          · exact Or.inr ⟨r, fun e => by simp only [safe_coolprop_call, hO]; exact hx e⟩
        | typeError m =>
          exact Or.inl ⟨PyExc.typeError m, fun e => by simp only [safe_coolprop_call, hO]⟩
        | otherError m =>
          exact Or.inl ⟨PyExc.otherError m, fun e => by simp only [safe_coolprop_call, hO]⟩
      · cases cr with
        | val q => exact Or.inr ⟨some q, fun e => ⟨e, by simp only [safe_coolprop_call, hO]⟩⟩
        | nonfinite =>
          rcases hhandle ("CoolProp returned non-finite value (" ++ out ++ "=nan)") with
            ⟨ex, hx⟩ | ⟨r, hx⟩
          · exact Or.inl ⟨ex, fun e => by simp only [safe_coolprop_call, hO]; exact hx e⟩
          · exact Or.inr ⟨r, fun e => by simp only [safe_coolprop_call, hO]; exact hx e⟩
    | nonfinite =>
      rcases hhandle "Invalid non-finite input" with ⟨ex, hx⟩ | ⟨r, hx⟩
      · exact Or.inl ⟨ex, fun e => hx e⟩
      · exact Or.inr ⟨r, fun e => hx e⟩
    | pynone =>
      rcases hhandle "Invalid non-finite input" with ⟨ex, hx⟩ | ⟨r, hx⟩
      · exact Or.inl ⟨ex, fun e => hx e⟩
      · exact Or.inr ⟨r, fun e => hx e⟩
    | pystr s =>
      rcases hhandle "Invalid non-finite input" with ⟨ex, hx⟩ | ⟨r, hx⟩
      · exact Or.inl ⟨ex, fun e => hx e⟩
      · exact Or.inr ⟨r, fun e => hx e⟩
  | nonfinite =>
    rcases hhandle "Invalid non-finite input" with ⟨ex, hx⟩ | ⟨r, hx⟩
    · exact Or.inl ⟨ex, fun e => hx e⟩
    · exact Or.inr ⟨r, fun e => hx e⟩
  | pynone =>
    rcases hhandle "Invalid non-finite input" with ⟨ex, hx⟩ | ⟨r, hx⟩
    · exact Or.inl ⟨ex, fun e => hx e⟩
    · exact Or.inr ⟨r, fun e => hx e⟩
  | pystr s =>
    rcases hhandle "Invalid non-finite input" with ⟨ex, hx⟩ | ⟨r, hx⟩
    · exact Or.inl ⟨ex, fun e => hx e⟩
    · exact Or.inr ⟨r, fun e => hx e⟩

/-- C7 (amended): recomputation is deterministic on the published state
points and performance values: two invocations of `calculate_cycle` with
the same parameters and the same (deterministic) property service agree
on everything except possibly the error log, whatever error logs they
start from. The full published result including the log is not
reproduced in general, because the invariant-violation message and the
isentropic-rise warning are appended afresh on every run. -/
theorem C7_pub_deterministic (P : Params) (O : Oracle) (e1 e2 : List String) :
    (calculate_cycle P O e1).map pubData = (calculate_cycle P O e2).map pubData := by
  simp only [calculate_cycle]
  by_cases hpc : P.p_evap_psia * PSIA_TO_PA ≥ P.p_cond_psia * PSIA_TO_PA
  · rw [if_pos hpc, if_pos hpc]
    rfl
  · rw [if_neg hpc, if_neg hpc]
    rcases safe_call_shape O "T" "P" (.num (P.p_evap_psia * PSIA_TO_PA)) "Q" (.num 1)
        REFRIGERANT with ⟨ex, hex⟩ | ⟨r1, hv⟩
    · rw [hex (cleanErrors e1), hex (cleanErrors e2)]
    · obtain ⟨ea1, ha1⟩ := hv (cleanErrors e1)
      obtain ⟨eb1, hb1⟩ := hv (cleanErrors e2)
      rw [ha1, hb1]; dsimp only
      rcases safe_call_shape O "T" "P" (.num (P.p_cond_psia * PSIA_TO_PA)) "Q" (.num 0)
          REFRIGERANT with ⟨ex, hex⟩ | ⟨r2, hv⟩
      · rw [hex ea1, hex eb1]
      · obtain ⟨ea2, ha2⟩ := hv ea1
        obtain ⟨eb2, hb2⟩ := hv eb1
        rw [ha2, hb2]; dsimp only
        cases r1 with
        | none =>
          cases r2 with
          | none => rfl
          | some a => rfl
        | some T_se =>
        cases r2 with
        | none => rfl
        | some T_sc =>
        dsimp only
        rcases safe_call_shape O "H" "P" (.num (P.p_evap_psia * PSIA_TO_PA)) "T"
            (.num (T_se + max (1 / 100) (P.superheat_F * DELTA_F_TO_DELTA_K)))
            REFRIGERANT with ⟨ex, hex⟩ | ⟨r3, hv⟩
        · rw [hex ea2, hex eb2]
        · obtain ⟨ea3, ha3⟩ := hv ea2
          obtain ⟨eb3, hb3⟩ := hv eb2
          rw [ha3, hb3]; dsimp only
          rcases safe_call_shape O "S" "P" (.num (P.p_evap_psia * PSIA_TO_PA)) "T"
              (.num (T_se + max (1 / 100) (P.superheat_F * DELTA_F_TO_DELTA_K)))
              REFRIGERANT with ⟨ex, hex⟩ | ⟨r4, hv⟩
          · rw [hex ea3, hex eb3]
          · obtain ⟨ea4, ha4⟩ := hv ea3
            obtain ⟨eb4, hb4⟩ := hv eb3
            rw [ha4, hb4]; dsimp only
            cases r3 with
            | none =>
              cases r4 with
              | none => rfl
              | some a => rfl
            | some h1v =>
            cases r4 with
            | none => rfl
            | some s1v =>
            dsimp only
            rcases safe_call_shape O "H" "P" (.num (P.p_cond_psia * PSIA_TO_PA)) "S"
                (.num s1v) REFRIGERANT with ⟨ex, hex⟩ | ⟨r5, hv⟩
            · rw [hex ea4, hex eb4]
            · obtain ⟨ea5, ha5⟩ := hv ea4
              obtain ⟨eb5, hb5⟩ := hv eb4
              rw [ha5, hb5]; dsimp only
              rcases safe_call_shape O "T" "P" (.num (P.p_cond_psia * PSIA_TO_PA)) "S"
                  (.num s1v) REFRIGERANT with ⟨ex, hex⟩ | ⟨r6, hv⟩
              · rw [hex ea5, hex eb5]
              · obtain ⟨ea6, ha6⟩ := hv ea5
                obtain ⟨eb6, hb6⟩ := hv eb5
                rw [ha6, hb6]; dsimp only
                cases r5 with
                | none =>
                  cases r6 with
                  | none => rfl
                  | some a => rfl
                | some h2sv =>
                cases r6 with
                | none => rfl
                | some T2sv =>
                dsimp only
                by_cases heta : P.eta_comp <= 0
                · rw [if_pos heta, if_pos heta]
                  rfl
                · rw [if_neg heta, if_neg heta]
                  by_cases hw : h2sv - h1v <= 0
                  · rw [if_pos hw, if_pos hw]
                    dsimp only
                    rcases safe_call_shape O "T" "P" (.num (P.p_cond_psia * PSIA_TO_PA)) "H"
                        (.num (h1v + 1 / 1000 / P.eta_comp)) REFRIGERANT with ⟨ex, hex⟩ | ⟨r7, hv⟩
                    · rw [hex (ea6 ++ ["Warning: Isentropic enthalpy rise <= 0"]), hex (eb6 ++ ["Warning: Isentropic enthalpy rise <= 0"])]
                    · obtain ⟨ea7, ha7⟩ := hv (ea6 ++ ["Warning: Isentropic enthalpy rise <= 0"])
                      obtain ⟨eb7, hb7⟩ := hv (eb6 ++ ["Warning: Isentropic enthalpy rise <= 0"])
                      rw [ha7, hb7]; dsimp only
                      rcases safe_call_shape O "S" "P" (.num (P.p_cond_psia * PSIA_TO_PA)) "H"
                          (.num (h1v + 1 / 1000 / P.eta_comp)) REFRIGERANT with ⟨ex, hex⟩ | ⟨r8, hv⟩
                      · rw [hex ea7, hex eb7]
                      · obtain ⟨ea8, ha8⟩ := hv ea7
                        obtain ⟨eb8, hb8⟩ := hv eb7
                        rw [ha8, hb8]; dsimp only
                        cases r7 with
                        | none =>
                          cases r8 with
                          | none => rfl
                          | some a => rfl
                        | some T2v =>
                        cases r8 with
                        | none => rfl
                        | some s2v =>
                        dsimp only
                        rcases safe_call_shape O "H" "P" (.num (P.p_cond_psia * PSIA_TO_PA)) "T"
                            (.num (T_sc - max (1 / 100) (P.subcooling_F * DELTA_F_TO_DELTA_K)))
                            REFRIGERANT with ⟨ex, hex⟩ | ⟨r9, hv⟩
                        · rw [hex ea8, hex eb8]
                        · obtain ⟨ea9, ha9⟩ := hv ea8
                          obtain ⟨eb9, hb9⟩ := hv eb8
                          rw [ha9, hb9]; dsimp only
                          rcases safe_call_shape O "S" "P" (.num (P.p_cond_psia * PSIA_TO_PA)) "T"
                              (.num (T_sc - max (1 / 100) (P.subcooling_F * DELTA_F_TO_DELTA_K)))
                              REFRIGERANT with ⟨ex, hex⟩ | ⟨r10, hv⟩
                          · rw [hex ea9, hex eb9]
                          · obtain ⟨ea10, ha10⟩ := hv ea9
                            obtain ⟨eb10, hb10⟩ := hv eb9
                            rw [ha10, hb10]; dsimp only
                            cases r9 with
                            | none =>
                              cases r10 with
                              | none => rfl
                              | some a => rfl
                            | some h3v =>
                            cases r10 with
                            | none => rfl
                            | some s3v =>
                            dsimp only
                            rcases safe_call_shape O "T" "P" (.num (P.p_evap_psia * PSIA_TO_PA)) "H"
                                (.num h3v) REFRIGERANT with ⟨ex, hex⟩ | ⟨r11, hv⟩
                            · rw [hex ea10, hex eb10]
                            · obtain ⟨ea11, ha11⟩ := hv ea10
                              obtain ⟨eb11, hb11⟩ := hv eb10
                              rw [ha11, hb11]; dsimp only
                              rcases safe_call_shape O "S" "P" (.num (P.p_evap_psia * PSIA_TO_PA)) "H"
                                  (.num h3v) REFRIGERANT with ⟨ex, hex⟩ | ⟨r12, hv⟩
                              · rw [hex ea11, hex eb11]
                              · obtain ⟨ea12, ha12⟩ := hv ea11
                                obtain ⟨eb12, hb12⟩ := hv eb11
                                rw [ha12, hb12]; dsimp only
                                rcases safe_call_shape O "Q" "P" (.num (P.p_evap_psia * PSIA_TO_PA)) "H"
                                    (.num h3v) REFRIGERANT with ⟨ex, hex⟩ | ⟨r13, hv⟩
                                · rw [hex ea12, hex eb12]
                                · obtain ⟨ea13, ha13⟩ := hv ea12
                                  obtain ⟨eb13, hb13⟩ := hv eb12
                                  rw [ha13, hb13]; dsimp only
                                  cases r11 with
                                  | none =>
                                    cases r12 with
                                    | none =>
                                      cases r13 with
                                      | none => rfl
                                      | some c => rfl
                                    | some b =>
                                      cases r13 with
                                      | none => rfl
                                      | some c => rfl
                                  | some T4v =>
                                  cases r12 with
                                  | none =>
                                    cases r13 with
                                    | none => rfl
                                    | some c => rfl
                                  | some s4v =>
                                  cases r13 with
                                  | none => rfl
                                  | some q4v => rfl
                  · rw [if_neg hw, if_neg hw]
                    dsimp only
                    rcases safe_call_shape O "T" "P" (.num (P.p_cond_psia * PSIA_TO_PA)) "H"
                        (.num (h1v + (h2sv - h1v) / P.eta_comp)) REFRIGERANT with ⟨ex, hex⟩ | ⟨r7, hv⟩
                    · rw [hex (ea6), hex (eb6)]
                    · obtain ⟨ea7, ha7⟩ := hv (ea6)
                      obtain ⟨eb7, hb7⟩ := hv (eb6)
                      rw [ha7, hb7]; dsimp only
                      rcases safe_call_shape O "S" "P" (.num (P.p_cond_psia * PSIA_TO_PA)) "H"
                          (.num (h1v + (h2sv - h1v) / P.eta_comp)) REFRIGERANT with ⟨ex, hex⟩ | ⟨r8, hv⟩
                      · rw [hex ea7, hex eb7]
                      · obtain ⟨ea8, ha8⟩ := hv ea7
                        obtain ⟨eb8, hb8⟩ := hv eb7
                        rw [ha8, hb8]; dsimp only
                        cases r7 with
                        | none =>
                          cases r8 with
                          | none => rfl
                          | some a => rfl
                        | some T2v =>
                        cases r8 with
                        | none => rfl
                        | some s2v =>
                        dsimp only
                        rcases safe_call_shape O "H" "P" (.num (P.p_cond_psia * PSIA_TO_PA)) "T"
                            (.num (T_sc - max (1 / 100) (P.subcooling_F * DELTA_F_TO_DELTA_K)))
                            REFRIGERANT with ⟨ex, hex⟩ | ⟨r9, hv⟩
                        · rw [hex ea8, hex eb8]
                        · obtain ⟨ea9, ha9⟩ := hv ea8
                          obtain ⟨eb9, hb9⟩ := hv eb8
                          rw [ha9, hb9]; dsimp only
                          rcases safe_call_shape O "S" "P" (.num (P.p_cond_psia * PSIA_TO_PA)) "T"
                              (.num (T_sc - max (1 / 100) (P.subcooling_F * DELTA_F_TO_DELTA_K)))
                              REFRIGERANT with ⟨ex, hex⟩ | ⟨r10, hv⟩
                          · rw [hex ea9, hex eb9]
                          · obtain ⟨ea10, ha10⟩ := hv ea9
                            obtain ⟨eb10, hb10⟩ := hv eb9
                            rw [ha10, hb10]; dsimp only
                            cases r9 with
                            | none =>
                              cases r10 with
                              | none => rfl
                              | some a => rfl
                            | some h3v =>
                            cases r10 with
                            | none => rfl
                            | some s3v =>
                            dsimp only
                            rcases safe_call_shape O "T" "P" (.num (P.p_evap_psia * PSIA_TO_PA)) "H"
                                (.num h3v) REFRIGERANT with ⟨ex, hex⟩ | ⟨r11, hv⟩
                            · rw [hex ea10, hex eb10]
                            · obtain ⟨ea11, ha11⟩ := hv ea10
                              obtain ⟨eb11, hb11⟩ := hv eb10
                              rw [ha11, hb11]; dsimp only
                              rcases safe_call_shape O "S" "P" (.num (P.p_evap_psia * PSIA_TO_PA)) "H"
                                  (.num h3v) REFRIGERANT with ⟨ex, hex⟩ | ⟨r12, hv⟩
                              · rw [hex ea11, hex eb11]
                              · obtain ⟨ea12, ha12⟩ := hv ea11
                                obtain ⟨eb12, hb12⟩ := hv eb11
                                rw [ha12, hb12]; dsimp only
                                rcases safe_call_shape O "Q" "P" (.num (P.p_evap_psia * PSIA_TO_PA)) "H"
                                    (.num h3v) REFRIGERANT with ⟨ex, hex⟩ | ⟨r13, hv⟩
                                · rw [hex ea12, hex eb12]
                                · obtain ⟨ea13, ha13⟩ := hv ea12
                                  obtain ⟨eb13, hb13⟩ := hv eb12
                                  rw [ha13, hb13]; dsimp only
                                  cases r11 with
                                  | none =>
                                    cases r12 with
                                    | none =>
                                      cases r13 with
                                      | none => rfl
                                      | some c => rfl
                                    | some b =>
                                      cases r13 with
                                      | none => rfl
                                      | some c => rfl
                                  | some T4v =>
                                  cases r12 with
                                  | none =>
                                    cases r13 with
                                    | none => rfl
                                    | some c => rfl
                                  | some s4v =>
                                  cases r13 with
                                  | none => rfl
                                  | some q4v => rfl

theorem C7_counterexample :
    ∃ r1 r2 : CycleResult,
      calculate_cycle ⟨160, 35, 10, 5, 3 / 4⟩ Oval5 [] = .ok r1 ∧
      calculate_cycle ⟨160, 35, 10, 5, 3 / 4⟩ Oval5 r1.errors = .ok r2 ∧
      r1.errors = ["P_evap must be < P_cond"] ∧
      r2.errors = ["P_evap must be < P_cond", "P_evap must be < P_cond"] ∧
      r2 ≠ r1 := by
  have h : (⟨160, 35, 10, 5, 3 / 4⟩ : Params).p_evap_psia * PSIA_TO_PA ≥
      (⟨160, 35, 10, 5, 3 / 4⟩ : Params).p_cond_psia * PSIA_TO_PA :=
    mul_le_mul_of_nonneg_right (by decide) PSIA_TO_PA_pos.le
  refine ⟨_, _, cycle_invalid_pressure _ Oval5 [] h,
    cycle_invalid_pressure _ Oval5 _ h, ?_, ?_, ?_⟩ <;> decide

/-! ## C10: the invariant message is never deduplicated nor cleaned -/

theorem C10_counterexample :
    ∃ m, safe_coolprop_call Ocptext [] "H" "P" (.num 1) "Q" (.num 0) REFRIGERANT =
        .ok ([m], none) ∧
      strContains m "CoolProp Error:" = true ∧
      cleanErrors [m] = [] := by
  refine ⟨cpErrMsg "CoolProp Error: fail" "H" "P" (fmt1f 1) "Q" (fmt1f 0), rfl, ?_, ?_⟩
  · decide
  · decide

/-- C10 (amended): on every invocation with evaporating pressure at least
the condensing pressure, `calculate_cycle` appends a fresh copy of the
invariant-violation message (it is not deduplicated), and its cleanup
filter removes exactly the entries containing `"CoolProp Error:"` — so
the message survives the next invocation and the log grows by one copy
per invalid recomputation. (An adapter entry is removed by that filter
only when the service error text itself contains the substring.) -/
theorem C10_amended (P : Params) (O O2 : Oracle) (e : List String)
    (h : P.p_evap_psia * PSIA_TO_PA ≥ P.p_cond_psia * PSIA_TO_PA) :
    ∃ r1 r2, calculate_cycle P O e = .ok r1 ∧
      calculate_cycle P O2 r1.errors = .ok r2 ∧
      r1.errors = cleanErrors e ++ ["P_evap must be < P_cond"] ∧
      r2.errors = cleanErrors e ++ ["P_evap must be < P_cond", "P_evap must be < P_cond"] := by
  refine ⟨_, _, cycle_invalid_pressure P O e h, cycle_invalid_pressure P O2 _ h, rfl, ?_⟩
  have hstep : cleanErrors (cleanErrors e ++ ["P_evap must be < P_cond"]) =
      cleanErrors e ++ ["P_evap must be < P_cond"] := by
    simp only [cleanErrors, List.filter_append, List.filter_filter, Bool.and_self]
    congr 1
  rw [hstep, List.append_assoc]
  rfl

theorem C10_witness :
    (⟨160, 35, 10, 5, 3 / 4⟩ : Params).p_evap_psia * PSIA_TO_PA ≥
        (⟨160, 35, 10, 5, 3 / 4⟩ : Params).p_cond_psia * PSIA_TO_PA ∧
      ∃ r1 r2, calculate_cycle ⟨160, 35, 10, 5, 3 / 4⟩ Ocptext [] = .ok r1 ∧
        calculate_cycle ⟨160, 35, 10, 5, 3 / 4⟩ Ocptext r1.errors = .ok r2 ∧
        r1.errors = cleanErrors [] ++ ["P_evap must be < P_cond"] ∧
        r2.errors = cleanErrors [] ++ ["P_evap must be < P_cond", "P_evap must be < P_cond"] := by
  have h : (⟨160, 35, 10, 5, 3 / 4⟩ : Params).p_evap_psia * PSIA_TO_PA ≥
      (⟨160, 35, 10, 5, 3 / 4⟩ : Params).p_cond_psia * PSIA_TO_PA :=
    mul_le_mul_of_nonneg_right (by decide) PSIA_TO_PA_pos.le
  exact ⟨h, C10_amended ⟨160, 35, 10, 5, 3 / 4⟩ Ocptext Ocptext [] h⟩

/-! ## C4: the adapter boundary -/

theorem C4_counterexample :
    safe_coolprop_call Oraise [] "T" "P" (.num 1) "Q" (.num 1) REFRIGERANT =
      .error (.otherError "backend failure") ∧
    safe_coolprop_call Oval5 [] "T" "P" (.pystr "abc") "Q" (.num 1) REFRIGERANT =
      .error (.valueError "Unknown format code f for object of type str") := by
  constructor <;> rfl

/-- C4 (amended): provided the property service raises only `ValueError`
(the class CoolProp uses) and no input value is a non-empty string (whose
formatting in the except-handler itself raises), `safe_coolprop_call`
never lets an exception escape: it returns the service's finite value, or
returns `None` after appending — deduplicated — the error entry built
from the requested output property and the two input name/value pairs. -/
theorem C4_adapter_no_raise (O : Oracle) (e : List String)
    (out i1 i2 fl : String) (v1 v2 : PyVal)
    (hO : OnlyValueErrors O)
    (h1 : v1.fmtOk = true) (h2 : v2.fmtOk = true) :
    ∃ e2 r, safe_coolprop_call O e out i1 v1 i2 v2 fl = .ok (e2, r) ∧
      ((∃ q, r = some q) ∨
        (r = none ∧ ∃ em f1 f2, v1.orZeroFmt = .ok f1 ∧ v2.orZeroFmt = .ok f2 ∧
          e2 = appendDedup e (cpErrMsg em out i1 f1 i2 f2))) := by
  have hfmt : ∀ v : PyVal, v.fmtOk = true → ∃ f, v.orZeroFmt = .ok f := by
    intro v hv
    cases v with
    | num q => exact ⟨_, rfl⟩
    | nonfinite => exact ⟨_, rfl⟩
    | pynone => exact ⟨_, rfl⟩
    | pystr s =>
      have hs : s = "" := by simpa [PyVal.fmtOk] using hv
      exact ⟨fmt1f 0, by simp [PyVal.orZeroFmt, hs]⟩
  obtain ⟨f1, hf1⟩ := hfmt v1 h1
  obtain ⟨f2, hf2⟩ := hfmt v2 h2
  cases v1 with
  | num q1 =>
    cases v2 with
    | num q2 =>
      rcases hOr : O out i1 q1 i2 q2 fl with ex | cr
      · cases ex with
        | valueError m =>
          refine ⟨appendDedup e (cpErrMsg m out i1 f1 i2 f2), none, ?_,
            Or.inr ⟨rfl, m, f1, f2, hf1, hf2, rfl⟩⟩
          simp only [safe_coolprop_call, hOr, hf1, hf2]
        | typeError m => exact absurd hOr (hO out i1 q1 i2 q2 fl m).2
        | otherError m => exact absurd hOr (hO out i1 q1 i2 q2 fl m).1
      · cases cr with
        | val q =>
          exact ⟨e, some q, by simp only [safe_coolprop_call, hOr], Or.inl ⟨q, rfl⟩⟩
        | nonfinite =>
          refine ⟨appendDedup e (cpErrMsg ("CoolProp returned non-finite value (" ++ out ++ "=nan)")
              out i1 f1 i2 f2), none, ?_,
            Or.inr ⟨rfl, _, f1, f2, hf1, hf2, rfl⟩⟩
          simp only [safe_coolprop_call, hOr, hf1, hf2]
    | nonfinite =>
      refine ⟨appendDedup e (cpErrMsg "Invalid non-finite input" out i1 f1 i2 f2), none, ?_,
        Or.inr ⟨rfl, _, f1, f2, hf1, hf2, rfl⟩⟩
      simp only [safe_coolprop_call, hf1, hf2]
    | pynone =>
      refine ⟨appendDedup e (cpErrMsg "Invalid non-finite input" out i1 f1 i2 f2), none, ?_,
        Or.inr ⟨rfl, _, f1, f2, hf1, hf2, rfl⟩⟩
      simp only [safe_coolprop_call, hf1, hf2]
    | pystr s =>
      refine ⟨appendDedup e (cpErrMsg "Invalid non-finite input" out i1 f1 i2 f2), none, ?_,
        Or.inr ⟨rfl, _, f1, f2, hf1, hf2, rfl⟩⟩
      simp only [safe_coolprop_call, hf1, hf2]
  | nonfinite =>
    refine ⟨appendDedup e (cpErrMsg "Invalid non-finite input" out i1 f1 i2 f2), none, ?_,
      Or.inr ⟨rfl, _, f1, f2, hf1, hf2, rfl⟩⟩
    simp only [safe_coolprop_call, hf1, hf2]
  | pynone =>
    refine ⟨appendDedup e (cpErrMsg "Invalid non-finite input" out i1 f1 i2 f2), none, ?_,
      Or.inr ⟨rfl, _, f1, f2, hf1, hf2, rfl⟩⟩
    simp only [safe_coolprop_call, hf1, hf2]
  | pystr s =>
    refine ⟨appendDedup e (cpErrMsg "Invalid non-finite input" out i1 f1 i2 f2), none, ?_,
      Or.inr ⟨rfl, _, f1, f2, hf1, hf2, rfl⟩⟩
    simp only [safe_coolprop_call, hf1, hf2]

theorem C4_witness :
    OnlyValueErrors Oval5 ∧ (PyVal.num 2).fmtOk = true ∧ (PyVal.num 3).fmtOk = true ∧
    ∃ e2 r, safe_coolprop_call Oval5 [] "T" "P" (.num 2) "Q" (.num 3) REFRIGERANT =
        .ok (e2, r) ∧
      ((∃ q, r = some q) ∨
        (r = none ∧ ∃ em f1 f2, (PyVal.num 2).orZeroFmt = .ok f1 ∧
          (PyVal.num 3).orZeroFmt = .ok f2 ∧
          e2 = appendDedup [] (cpErrMsg em "T" "P" f1 "Q" f2))) := by
  have hO : OnlyValueErrors Oval5 :=
    fun out i1 v1 i2 v2 fl m => ⟨fun h => (nomatch h), fun h => (nomatch h)⟩
  exact ⟨hO, rfl, rfl,
    C4_adapter_no_raise Oval5 [] "T" "P" "Q" REFRIGERANT (.num 2) (.num 3) hO rfl rfl⟩

/-! ## C9: the coordinate mapper on absent inputs -/

/-- C9: the coordinate mapper is not total on absent inputs: an absent
pressure reaches the numeric guard first and raises a `TypeError`; an
absent enthalpy with a numeric pressure returns `None`; an in-bounds
numeric pair returns an integer pixel pair. -/
theorem C9_map_coordinates_none (cfg : SimCfg) (lg : ℚ → ℚ) :
    (∀ h, ∃ m, map_coordinates cfg lg h none = .error (.typeError m)) ∧
    (∀ p, map_coordinates cfg lg none (some p) = .ok none) ∧
    (∀ h p, 1 / 1000000 < p → cfg.h_min_btu_lb ≤ h → h ≤ cfg.h_max_btu_lb →
      lg cfg.p_min_psia ≤ lg p → lg p ≤ lg cfg.p_max_psia →
      ∃ x y, map_coordinates cfg lg (some h) (some p) = .ok (some (x, y))) := by
  refine ⟨fun h => ⟨_, rfl⟩, fun p => rfl, fun h p hp hh1 hh2 hp1 hp2 => ?_⟩
  simp only [map_coordinates]
  rw [if_neg (not_le.mpr hp), if_pos ⟨hh1, hh2, hp1, hp2⟩]
  exact ⟨_, _, rfl⟩

theorem C9_witness :
    ((1 : ℚ) / 1000000 < 50 ∧ defaultCfg.h_min_btu_lb ≤ 100 ∧
      (100 : ℚ) ≤ defaultCfg.h_max_btu_lb ∧
      id defaultCfg.p_min_psia ≤ id (50 : ℚ) ∧ id (50 : ℚ) ≤ id defaultCfg.p_max_psia) ∧
    (∃ x y, map_coordinates defaultCfg id (some 100) (some 50) = .ok (some (x, y))) ∧
    (∃ m, map_coordinates defaultCfg id (some 100) none = .error (.typeError m)) ∧
    map_coordinates defaultCfg id none (some 50) = .ok none := by
  have hp : (1 : ℚ) / 1000000 < 50 := by norm_num
  have hh1 : defaultCfg.h_min_btu_lb ≤ (100 : ℚ) := by norm_num [defaultCfg]
  have hh2 : (100 : ℚ) ≤ defaultCfg.h_max_btu_lb := by norm_num [defaultCfg]
  have hp1 : id defaultCfg.p_min_psia ≤ id (50 : ℚ) := by norm_num [defaultCfg]
  have hp2 : id (50 : ℚ) ≤ id defaultCfg.p_max_psia := by norm_num [defaultCfg]
  exact ⟨⟨hp, hh1, hh2, hp1, hp2⟩,
    (C9_map_coordinates_none defaultCfg id).2.2 100 50 hp hh1 hh2 hp1 hp2,
    (C9_map_coordinates_none defaultCfg id).1 (some 100),
    (C9_map_coordinates_none defaultCfg id).2.1 50⟩

/-! ## C5, C6: the dome sampler -/
theorem safe_call_val {O : Oracle} {out i1 : String} {v1 : ℚ} {i2 : String} {v2 : ℚ}
    {fl : String} {q : ℚ} (h : O out i1 v1 i2 v2 fl = .ok (.val q)) (e : List String) :
    safe_coolprop_call O e out i1 (.num v1) i2 (.num v2) fl = .ok (e, some q) := by
  simp only [safe_coolprop_call, h]

theorem safe_call_some_val {O : Oracle} {e : List String} {out i1 : String} {v1 : ℚ}
    {i2 : String} {v2 : ℚ} {fl : String} {e2 : List String} {q : ℚ}
    (h : safe_coolprop_call O e out i1 (.num v1) i2 (.num v2) fl = .ok (e2, some q)) :
    O out i1 v1 i2 v2 fl = .ok (.val q) := by
  rcases hO : O out i1 v1 i2 v2 fl with ex | cr
  · cases ex with
    | valueError m =>
      simp only [safe_coolprop_call, hO, PyVal.orZeroFmt] at h
      simp at h
    | typeError m =>
      simp only [safe_coolprop_call, hO] at h
      exact (nomatch h)
    | otherError m =>
      simp only [safe_coolprop_call, hO] at h
      exact (nomatch h)
  · cases cr with
    | val q2 =>
      simp only [safe_coolprop_call, hO, Except.ok.injEq, Prod.mk.injEq,
        Option.some.injEq] at h
      obtain ⟨h1, h2⟩ := h
      subst h2
      rfl
    | nonfinite =>
      simp only [safe_coolprop_call, hO, PyVal.orZeroFmt] at h
      simp at h

theorem safe_call_num_ok (O : Oracle) (hO : OnlyValueErrors O) (e : List String)
    (out i1 : String) (v1 : ℚ) (i2 : String) (v2 : ℚ) (fl : String) :
    ∃ pr, safe_coolprop_call O e out i1 (.num v1) i2 (.num v2) fl = .ok pr := by
  rcases hOr : O out i1 v1 i2 v2 fl with ex | cr
  · cases ex with
    | valueError m =>
      exact ⟨(appendDedup e (cpErrMsg m out i1 (fmt1f v1) i2 (fmt1f v2)), none),
        by simp only [safe_coolprop_call, hOr, PyVal.orZeroFmt]⟩
    | typeError m => exact absurd hOr (hO out i1 v1 i2 v2 fl m).2
    | otherError m => exact absurd hOr (hO out i1 v1 i2 v2 fl m).1
  · cases cr with
    | val q => exact ⟨(e, some q), by simp only [safe_coolprop_call, hOr]⟩
    | nonfinite =>
      exact ⟨(appendDedup e (cpErrMsg ("CoolProp returned non-finite value (" ++ out ++ "=nan)")
          out i1 (fmt1f v1) i2 (fmt1f v2)), none),
        by simp only [safe_coolprop_call, hOr, PyVal.orZeroFmt]⟩

theorem domeLoop_spec (O : Oracle) (gl : List ℚ) :
    ∀ ps ls vs es, ∃ s l v es2 exc,
      domeLoop O gl (ps, ls, vs, es) = (ps ++ s, ls ++ l, vs ++ v, es2, exc) ∧
      s.Sublist gl ∧
      (PhysSaturation O → List.Forall₂ (· ≤ ·) l v) ∧
      (OnlyValueErrors O → exc = none) := by
  induction gl with
  | nil =>
    intro ps ls vs es
    exact ⟨[], [], [], es, none, by simp [domeLoop], List.nil_sublist _,
      fun _ => List.Forall₂.nil, fun _ => rfl⟩
  | cons p rest ih =>
    intro ps ls vs es
    rcases h0 : safe_coolprop_call O es "H" "P" (.num p) "Q" (.num 0) REFRIGERANT with ex | pr
    · refine ⟨[], [], [], es, some ex, ?_, List.nil_sublist _,
        fun _ => List.Forall₂.nil, fun hO => ?_⟩
      · simp [domeLoop, h0]
      · obtain ⟨pp, hpp⟩ := safe_call_num_ok O hO es "H" "P" p "Q" 0 REFRIGERANT
        rw [h0] at hpp
        exact (nomatch hpp)
    · obtain ⟨es1, rliq⟩ := pr
      rcases h1 : safe_coolprop_call O es1 "H" "P" (.num p) "Q" (.num 1) REFRIGERANT with ex | pr2
      · refine ⟨[], [], [], es1, some ex, ?_, List.nil_sublist _,
          fun _ => List.Forall₂.nil, fun hO => ?_⟩
        · simp [domeLoop, h0, h1]
        · obtain ⟨pp, hpp⟩ := safe_call_num_ok O hO es1 "H" "P" p "Q" 1 REFRIGERANT
          rw [h1] at hpp
          exact (nomatch hpp)
      · obtain ⟨es2, rvap⟩ := pr2
        cases rliq with
        | none =>
          obtain ⟨s, l, v, es3, exc, heq, hsub, hphys, hexc⟩ := ih ps ls vs es2
          refine ⟨s, l, v, es3, exc, ?_, hsub.cons p, hphys, hexc⟩
          cases rvap with
          | none => simp only [domeLoop, h0, h1]; exact heq
          | some hv => simp only [domeLoop, h0, h1]; exact heq
        | some hl =>
          cases rvap with
          | none =>
            obtain ⟨s, l, v, es3, exc, heq, hsub, hphys, hexc⟩ := ih ps ls vs es2
            refine ⟨s, l, v, es3, exc, ?_, hsub.cons p, hphys, hexc⟩
            simp only [domeLoop, h0, h1]
            exact heq
          | some hv =>
            obtain ⟨s, l, v, es3, exc, heq, hsub, hphys, hexc⟩ :=
              ih (ps ++ [p]) (ls ++ [hl]) (vs ++ [hv]) es2
            refine ⟨p :: s, hl :: l, hv :: v, es3, exc, ?_, hsub.cons₂ p, fun hp => ?_, hexc⟩
            · simp only [domeLoop, h0, h1]
              rw [heq]
              simp [List.append_assoc]
            · exact List.Forall₂.cons
                (hp p hl hv (safe_call_some_val h0) (safe_call_some_val h1)) (hphys hp)
theorem mem_of_getLast_eq {L : List ℚ} {x : ℚ} (hx : L.getLast? = some x) : x ∈ L := by
  rw [List.getLast?_eq_some_iff] at hx
  obtain ⟨ys, rfl⟩ := hx
  simp

theorem domeBody_spec (cfg : SimCfg) (grid : ℚ → ℚ → ℕ → List ℚ) (O : Oracle)
    (errs : List String)
    (Hmono : ∀ a b : ℚ, a < b → List.Chain' (· < ·) (grid a b 80))
    (Hub : ∀ a b : ℚ, a < b → ∀ p ∈ grid a b 80, p ≤ b) :
    ∃ ps ls vs es2 exc, domeBody cfg grid O errs = (ps, ls, vs, es2, exc) ∧
      List.Chain' (· < ·) ps ∧
      (PhysSaturation O → List.Forall₂ (· ≤ ·) ls vs) ∧
      ∀ c, O "pcrit" "" 0 "" 0 REFRIGERANT = .ok (.val c) →
        (∀ p ∈ ps.dropLast, p < c) ∧ (∀ p ∈ ps, p ≤ c) := by
  rcases hc : safe_coolprop_call O errs "pcrit" "" (.num 0) "" (.num 0) REFRIGERANT with ex | pr
  · refine ⟨[], [], [], errs, some ex, ?_, List.chain'_nil, fun _ => List.Forall₂.nil,
      fun c _ => ⟨by simp, by simp⟩⟩
    simp [domeBody, hc]
  · obtain ⟨es1, rcrit⟩ := pr
    cases rcrit with
    | none =>
      refine ⟨[], [], [], es1, none, ?_, List.chain'_nil, fun _ => List.Forall₂.nil,
        fun c _ => ⟨by simp, by simp⟩⟩
      simp [domeBody, hc]
    | some c0 =>
      have hOc : O "pcrit" "" 0 "" 0 REFRIGERANT = .ok (.val c0) := safe_call_some_val hc
      by_cases hr : max 1000 (cfg.p_min_psia * PSIA_TO_PA) ≥
          min (cfg.p_max_psia * PSIA_TO_PA) (c0 * (999 / 1000))
      · refine ⟨[], [], [], es1 ++ ["Dome Calc: Invalid SI P range from PSIA."], none, ?_,
          List.chain'_nil, fun _ => List.Forall₂.nil, fun c _ => ⟨by simp, by simp⟩⟩
        simp only [domeBody, hc]
        rw [if_pos hr]
      · push_neg at hr
        obtain ⟨s, l, v, es3, exc, heq, hsub, hphys, hexc⟩ :=
          domeLoop_spec O (grid (max 1000 (cfg.p_min_psia * PSIA_TO_PA))
            (min (cfg.p_max_psia * PSIA_TO_PA) (c0 * (999 / 1000))) 80) [] [] [] es1
        simp only [List.nil_append] at heq
        have hble : min (cfg.p_max_psia * PSIA_TO_PA) (c0 * (999 / 1000)) ≤
            c0 * (999 / 1000) := min_le_right _ _
        have h1000 : (1000 : ℚ) ≤ max 1000 (cfg.p_min_psia * PSIA_TO_PA) := le_max_left _ _
        have hc0 : 0 < c0 := by nlinarith
        have hlt : ∀ p ∈ s, p < c0 := by
          intro p hp
          have hpb := Hub _ _ hr p (hsub.subset hp)
          nlinarith
        have hchain : List.Chain' (· < ·) s :=
          List.chain'_iff_pairwise.mpr
            (List.Pairwise.sublist hsub (List.chain'_iff_pairwise.mp (Hmono _ _ hr)))
        have hcrit : ∀ c, O "pcrit" "" 0 "" 0 REFRIGERANT = .ok (.val c) →
            (∀ p ∈ s.dropLast, p < c) ∧ (∀ p ∈ s, p ≤ c) := by
          intro c hc2
          rw [hOc] at hc2
          simp only [Except.ok.injEq, CPResult.val.injEq] at hc2
          subst hc2
          exact ⟨fun p hp => hlt p ((List.dropLast_sublist s).subset hp),
            fun p hp => (hlt p hp).le⟩
        cases exc with
        | some e =>
          refine ⟨s, l, v, es3, some e, ?_, hchain, hphys, hcrit⟩
          simp only [domeBody, hc]
          rw [if_neg (not_le.mpr hr), heq]
        | none =>
          by_cases hap : min (cfg.p_max_psia * PSIA_TO_PA) (c0 * (999 / 1000)) >
              c0 * (9 / 10)
          · rcases hax : safe_coolprop_call O es3 "H" "P" (.num c0) "Q" (.num (1 / 2))
                REFRIGERANT with ex | pr2
            · refine ⟨s, l, v, es3, some ex, ?_, hchain, hphys, hcrit⟩
              simp only [domeBody, hc]
              rw [if_neg (not_le.mpr hr), heq]
              dsimp only
              rw [if_pos hap, hax]
            · obtain ⟨es4, rch⟩ := pr2
              cases rch with
              | none =>
                refine ⟨s, l, v, es4, none, ?_, hchain, hphys, hcrit⟩
                simp only [domeBody, hc]
                rw [if_neg (not_le.mpr hr), heq]
                dsimp only
                rw [if_pos hap, hax]
              | some ch =>
                by_cases hwin : cfg.p_min_psia ≤ c0 * PA_TO_PSIA ∧
                    c0 * PA_TO_PSIA ≤ cfg.p_max_psia
                · refine ⟨s ++ [c0], l ++ [ch], v ++ [ch], es4, none, ?_, ?_, ?_, ?_⟩
                  · simp only [domeBody, hc]
                    rw [if_neg (not_le.mpr hr), heq]
                    dsimp only
                    rw [if_pos hap, hax]
                    dsimp only
                    rw [if_pos hwin]
                  · refine List.Chain'.append hchain (List.chain'_singleton c0) ?_
                    intro x hx y hy
                    simp only [List.head?_cons, Option.mem_def, Option.some.injEq] at hy
                    subst hy
                    exact hlt x (mem_of_getLast_eq hx)
                  · intro hp
                    exact List.rel_append (hphys hp) (List.Forall₂.cons le_rfl List.Forall₂.nil)
                  · intro c hc2
                    rw [hOc] at hc2
                    simp only [Except.ok.injEq, CPResult.val.injEq] at hc2
                    subst hc2
                    constructor
                    · intro p hp
                      rw [List.dropLast_concat] at hp
                      exact hlt p hp
                    · intro p hp
                      rcases List.mem_append.mp hp with hp | hp
                      · exact (hlt p hp).le
                      · simp only [List.mem_singleton] at hp
                        subst hp
                        exact le_rfl
                · refine ⟨s, l, v, es4, none, ?_, hchain, hphys, hcrit⟩
                  simp only [domeBody, hc]
                  rw [if_neg (not_le.mpr hr), heq]
                  dsimp only
                  rw [if_pos hap, hax]
                  dsimp only
                  rw [if_neg hwin]
          · refine ⟨s, l, v, es3, none, ?_, hchain, hphys, hcrit⟩
            simp only [domeBody, hc]
            rw [if_neg (not_le.mpr hr), heq]
            dsimp only
            rw [if_neg hap]
theorem dome_apex_iff_aux (cfg : SimCfg) (grid : ℚ → ℚ → ℕ → List ℚ) (O : Oracle)
    (e0 : List String)
    (Hub : ∀ a b : ℚ, a < b → ∀ p ∈ grid a b 80, p ≤ b)
    (hO : OnlyValueErrors O)
    (c : ℚ) (Hc : O "pcrit" "" 0 "" 0 REFRIGERANT = .ok (.val c)) :
    (calculate_dome cfg grid O e0).dome_p_pa.getLast? = some c ↔
      (max 1000 (cfg.p_min_psia * PSIA_TO_PA) <
          min (cfg.p_max_psia * PSIA_TO_PA) (c * (999 / 1000)) ∧
        min (cfg.p_max_psia * PSIA_TO_PA) (c * (999 / 1000)) > c * (9 / 10) ∧
        (∃ q, O "H" "P" c "Q" (1 / 2) REFRIGERANT = .ok (.val q)) ∧
        cfg.p_min_psia ≤ c * PA_TO_PSIA ∧ c * PA_TO_PSIA ≤ cfg.p_max_psia) := by
  have hcall := safe_call_val Hc (e0.filter fun e => !(strContains e "Dome"))
  by_cases hr : max 1000 (cfg.p_min_psia * PSIA_TO_PA) ≥
      min (cfg.p_max_psia * PSIA_TO_PA) (c * (999 / 1000))
  · have hres : (calculate_dome cfg grid O e0).dome_p_pa = [] := by
      simp only [calculate_dome, domeBody, hcall]
      rw [if_pos hr]
    rw [hres]
    refine iff_of_false (fun h => by simp at h) ?_
    rintro ⟨h1, -⟩
    exact absurd h1 (not_lt.mpr hr)
  · push_neg at hr
    obtain ⟨s, l, v, es3, exc, heq, hsub, hphys, hexc⟩ :=
      domeLoop_spec O (grid (max 1000 (cfg.p_min_psia * PSIA_TO_PA))
        (min (cfg.p_max_psia * PSIA_TO_PA) (c * (999 / 1000))) 80) [] [] [] _
    simp only [List.nil_append] at heq
    rw [hexc hO] at heq
    have hble : min (cfg.p_max_psia * PSIA_TO_PA) (c * (999 / 1000)) ≤
        c * (999 / 1000) := min_le_right _ _
    have h1000 : (1000 : ℚ) ≤ max 1000 (cfg.p_min_psia * PSIA_TO_PA) := le_max_left _ _
    have hc0 : 0 < c := by nlinarith
    have hlt : ∀ p ∈ s, p < c := by
      intro p hp
      have hpb := Hub _ _ hr p (hsub.subset hp)
      nlinarith
    have hlast_ne : ¬s.getLast? = some c := fun h =>
      absurd (hlt c (mem_of_getLast_eq h)) (lt_irrefl c)
    by_cases hap : min (cfg.p_max_psia * PSIA_TO_PA) (c * (999 / 1000)) > c * (9 / 10)
    · rcases hax : safe_coolprop_call O es3 "H" "P" (.num c) "Q" (.num (1 / 2))
          REFRIGERANT with ex | pr2
      · obtain ⟨pp, hpp⟩ := safe_call_num_ok O hO es3 "H" "P" c "Q" (1 / 2) REFRIGERANT
        rw [hax] at hpp
        exact (nomatch hpp)
      · obtain ⟨es4, rch⟩ := pr2
        cases rch with
        | none =>
          have hres : (calculate_dome cfg grid O e0).dome_p_pa = s := by
            simp only [calculate_dome, domeBody, hcall]
            rw [if_neg (not_le.mpr hr), heq]
            dsimp only
            rw [if_pos hap, hax]
          rw [hres]
          refine iff_of_false hlast_ne ?_
          rintro ⟨-, -, ⟨q, hq⟩, -⟩
          have := safe_call_val hq es3
          rw [hax] at this
          simp at this
        | some ch =>
          have hOch : O "H" "P" c "Q" (1 / 2) REFRIGERANT = .ok (.val ch) :=
            safe_call_some_val hax
          by_cases hwin : cfg.p_min_psia ≤ c * PA_TO_PSIA ∧ c * PA_TO_PSIA ≤ cfg.p_max_psia
          · have hres : (calculate_dome cfg grid O e0).dome_p_pa = s ++ [c] := by
              simp only [calculate_dome, domeBody, hcall]
              rw [if_neg (not_le.mpr hr), heq]
              dsimp only
              rw [if_pos hap, hax]
              dsimp only
              rw [if_pos hwin]
            rw [hres, List.getLast?_concat]
            exact iff_of_true rfl ⟨hr, hap, ⟨ch, hOch⟩, hwin.1, hwin.2⟩
          · have hres : (calculate_dome cfg grid O e0).dome_p_pa = s := by
              simp only [calculate_dome, domeBody, hcall]
              rw [if_neg (not_le.mpr hr), heq]
              dsimp only
              rw [if_pos hap, hax]
              dsimp only
              rw [if_neg hwin]
            rw [hres]
            refine iff_of_false hlast_ne ?_
            rintro ⟨-, -, -, h4, h5⟩
            exact absurd ⟨h4, h5⟩ hwin
    · have hres : (calculate_dome cfg grid O e0).dome_p_pa = s := by
        simp only [calculate_dome, domeBody, hcall]
        rw [if_neg (not_le.mpr hr), heq]
        dsimp only
        rw [if_neg hap]
      rw [hres]
      refine iff_of_false hlast_ne ?_
      rintro ⟨-, h2, -⟩
      exact absurd h2 hap
theorem unitGrid_chain : ∀ a b : ℚ, a < b → List.Chain' (· < ·) (unitGrid a b 80) :=
  fun a _ _ => List.chain'_singleton a

theorem unitGrid_le : ∀ a b : ℚ, a < b → ∀ p ∈ unitGrid a b 80, p ≤ b := by
  intro a b hab p hp
  simp only [unitGrid, List.mem_singleton] at hp
  subst hp
  exact hab.le

theorem onlyVE_Odome : OnlyValueErrors Odome :=
  fun _ _ _ _ _ _ _ => ⟨fun h => (nomatch h), fun h => (nomatch h)⟩

theorem onlyVE_OdomeBigH : OnlyValueErrors OdomeBigH :=
  fun _ _ _ _ _ _ _ => ⟨fun h => (nomatch h), fun h => (nomatch h)⟩

theorem phys_Odome : PhysSaturation Odome := by
  intro p hl hv h0 h1
  simp only [Odome, Except.ok.injEq, CPResult.val.injEq,
    if_neg (by decide : ¬("H" = "pcrit"))] at h0 h1
  rw [← h0, ← h1]

/-- C5 (amended): for a sampling grid meeting the logspace contract
(strictly increasing, bounded by the upper end of the effective range)
and a property service consistent with saturation ordering, every dome
curve has strictly increasing pressures and vapor enthalpy at least
liquid enthalpy at every sample; every sample's pressure is at most the
reported critical pressure, and strictly below it except for a possible
terminal critical-point apex (whose pressure equals the critical
pressure). -/
theorem C5_dome_monotone (cfg : SimCfg) (grid : ℚ → ℚ → ℕ → List ℚ) (O : Oracle)
    (e0 : List String)
    (Hmono : ∀ a b : ℚ, a < b → List.Chain' (· < ·) (grid a b 80))
    (Hub : ∀ a b : ℚ, a < b → ∀ p ∈ grid a b 80, p ≤ b)
    (Hphys : PhysSaturation O) :
    List.Chain' (· < ·) (calculate_dome cfg grid O e0).dome_p_pa ∧
    List.Forall₂ (· ≤ ·) (calculate_dome cfg grid O e0).dome_h_liq
      (calculate_dome cfg grid O e0).dome_h_vap ∧
    ∀ c, O "pcrit" "" 0 "" 0 REFRIGERANT = .ok (.val c) →
      (∀ p ∈ (calculate_dome cfg grid O e0).dome_p_pa.dropLast, p < c) ∧
      ∀ p ∈ (calculate_dome cfg grid O e0).dome_p_pa, p ≤ c := by
  obtain ⟨ps, ls, vs, es2, exc, heq, hch, hf, hcr⟩ :=
    domeBody_spec cfg grid O (e0.filter fun e => !(strContains e "Dome")) Hmono Hub
  cases exc with
  | none =>
    have h1 : calculate_dome cfg grid O e0 = ⟨ps, ls, vs, es2⟩ := by
      simp only [calculate_dome]
      rw [heq]
    rw [h1]
    exact ⟨hch, hf Hphys, hcr⟩
  | some e =>
    have h1 : calculate_dome cfg grid O e0 =
        ⟨ps, ls, vs, appendDedup es2 ("Unexpected Dome Calc Error: " ++ e.str)⟩ := by
      simp only [calculate_dome]
      rw [heq]
    rw [h1]
    exact ⟨hch, hf Hphys, hcr⟩

theorem C5_witness :
    PhysSaturation Odome ∧
    (List.Chain' (· < ·) (calculate_dome defaultCfg unitGrid Odome []).dome_p_pa ∧
      List.Forall₂ (· ≤ ·) (calculate_dome defaultCfg unitGrid Odome []).dome_h_liq
        (calculate_dome defaultCfg unitGrid Odome []).dome_h_vap ∧
      ∀ c, Odome "pcrit" "" 0 "" 0 REFRIGERANT = .ok (.val c) →
        (∀ p ∈ (calculate_dome defaultCfg unitGrid Odome []).dome_p_pa.dropLast, p < c) ∧
        ∀ p ∈ (calculate_dome defaultCfg unitGrid Odome []).dome_p_pa, p ≤ c) :=
  ⟨phys_Odome,
    C5_dome_monotone defaultCfg unitGrid Odome [] unitGrid_chain unitGrid_le phys_Odome⟩

theorem C5_counterexample :
    Odome "pcrit" "" 0 "" 0 REFRIGERANT = .ok (.val 1000000) ∧
    ¬ ∀ p ∈ (calculate_dome defaultCfg unitGrid Odome []).dome_p_pa, p < 1000000 := by
  have hOc : Odome "pcrit" "" 0 "" 0 REFRIGERANT = .ok (.val 1000000) := rfl
  refine ⟨hOc, ?_⟩
  have hlast : (calculate_dome defaultCfg unitGrid Odome []).dome_p_pa.getLast? =
      some 1000000 :=
    (dome_apex_iff_aux defaultCfg unitGrid Odome [] unitGrid_le onlyVE_Odome 1000000
        hOc).mpr
      ⟨by norm_num [defaultCfg, PSIA_TO_PA, KPA_TO_PSIA, max_lt_iff, lt_min_iff],
        by norm_num [defaultCfg, PSIA_TO_PA, KPA_TO_PSIA, lt_min_iff],
        ⟨300000, rfl⟩,
        by norm_num [defaultCfg, PA_TO_PSIA, KPA_TO_PSIA],
        by norm_num [defaultCfg, PA_TO_PSIA, KPA_TO_PSIA]⟩
  intro hall
  exact absurd (hall 1000000 (mem_of_getLast_eq hlast)) (lt_irrefl _)

/-- C6 (amended): with a property service raising only `ValueError` and a
grid meeting the logspace contract, `calculate_dome` appends the
critical-point apex as the terminal sample exactly when the effective
sampling range is non-empty, its upper bound exceeds 90% of the critical
pressure, the apex enthalpy lookup succeeds, and the critical pressure
converted to psia lies within the pressure display window — the enthalpy
display window is not consulted. -/
theorem C6_apex_iff (cfg : SimCfg) (grid : ℚ → ℚ → ℕ → List ℚ) (O : Oracle)
    (e0 : List String)
    (Hub : ∀ a b : ℚ, a < b → ∀ p ∈ grid a b 80, p ≤ b)
    (hO : OnlyValueErrors O)
    (c : ℚ) (Hc : O "pcrit" "" 0 "" 0 REFRIGERANT = .ok (.val c)) :
    (calculate_dome cfg grid O e0).dome_p_pa.getLast? = some c ↔
      (max 1000 (cfg.p_min_psia * PSIA_TO_PA) <
          min (cfg.p_max_psia * PSIA_TO_PA) (c * (999 / 1000)) ∧
        min (cfg.p_max_psia * PSIA_TO_PA) (c * (999 / 1000)) > c * (9 / 10) ∧
        (∃ q, O "H" "P" c "Q" (1 / 2) REFRIGERANT = .ok (.val q)) ∧
        cfg.p_min_psia ≤ c * PA_TO_PSIA ∧ c * PA_TO_PSIA ≤ cfg.p_max_psia) :=
  dome_apex_iff_aux cfg grid O e0 Hub hO c Hc

theorem C6_counterexample :
    OdomeBigH "pcrit" "" 0 "" 0 REFRIGERANT = .ok (.val 1000000) ∧
    OdomeBigH "H" "P" 1000000 "Q" (1 / 2) REFRIGERANT = .ok (.val 3000000) ∧
    ¬(defaultCfg.h_min_btu_lb ≤ 3000000 * J_KG_TO_BTU_LB ∧
        3000000 * J_KG_TO_BTU_LB ≤ defaultCfg.h_max_btu_lb) ∧
    (calculate_dome defaultCfg unitGrid OdomeBigH []).dome_p_pa.getLast? =
      some 1000000 := by
  have hOc : OdomeBigH "pcrit" "" 0 "" 0 REFRIGERANT = .ok (.val 1000000) := rfl
  refine ⟨hOc, rfl, ?_, ?_⟩
  · norm_num [defaultCfg, J_KG_TO_BTU_LB]
  · exact (dome_apex_iff_aux defaultCfg unitGrid OdomeBigH [] unitGrid_le onlyVE_OdomeBigH
        1000000 hOc).mpr
      ⟨by norm_num [defaultCfg, PSIA_TO_PA, KPA_TO_PSIA, max_lt_iff, lt_min_iff],
        by norm_num [defaultCfg, PSIA_TO_PA, KPA_TO_PSIA, lt_min_iff],
        ⟨3000000, rfl⟩,
        by norm_num [defaultCfg, PA_TO_PSIA, KPA_TO_PSIA],
        by norm_num [defaultCfg, PA_TO_PSIA, KPA_TO_PSIA]⟩

theorem C6_witness :
    OnlyValueErrors Odome ∧
    Odome "pcrit" "" 0 "" 0 REFRIGERANT = .ok (.val 1000000) ∧
    (calculate_dome defaultCfg unitGrid Odome []).dome_p_pa.getLast? = some 1000000 := by
  have hOc : Odome "pcrit" "" 0 "" 0 REFRIGERANT = .ok (.val 1000000) := rfl
  exact ⟨onlyVE_Odome, hOc,
    (C6_apex_iff defaultCfg unitGrid Odome [] unitGrid_le onlyVE_Odome 1000000 hOc).mpr
      ⟨by norm_num [defaultCfg, PSIA_TO_PA, KPA_TO_PSIA, max_lt_iff, lt_min_iff],
        by norm_num [defaultCfg, PSIA_TO_PA, KPA_TO_PSIA, lt_min_iff],
        ⟨300000, rfl⟩,
        by norm_num [defaultCfg, PA_TO_PSIA, KPA_TO_PSIA],
        by norm_num [defaultCfg, PA_TO_PSIA, KPA_TO_PSIA]⟩⟩

end PhSim
